import Mathlib

/-!
Verification development for the code-generation engine of a visual
database-modeling tool.  The engine compiles an in-memory entity-relationship
data model into textual artifacts (ORM entity classes, a DbContext-style
mapping configuration, REST controllers, an OpenAPI document, SQL DDL, ...).

The definitions below are a shallow embedding of the TypeScript sources:
string helpers and per-field renderers from
`src/domains/preview-pane/generators/helpers.ts`, the static type maps from
`generators/types.ts`, the entity-class generator from
`generators/ef-core-generator.ts`, the DbContext generator from
`generators/dbcontext-generator.ts`, the controller generator from
`generators/controller-generator.ts`, the OpenAPI generator from
`generators/openapi-generator.ts`, and the dispatching facade of the
preview pane.  JavaScript strings are modelled as Lean `String`
(character lists); JS truthiness on optional strings/numbers is made
explicit (`none` or empty/zero count as falsy).  Generators accumulate an
array of lines and join them with a newline, which is modelled by
`List String` plus `joinLines`.
-/

namespace DbTool

/-- JavaScript `toLowerCase` restricted to ASCII, as used on default-value
tokens and enum-like strings in the generators. -/
def jsToLower (s : String) : String :=
  String.mk (s.data.map Char.toLower)

/-- Character-list prefix test (pattern first), used to model
`String.prototype.startsWith` and regex anchoring. -/
def startsWithCL : List Char → List Char → Bool
  | [], _ => true
  | _ :: _, [] => false
  | p :: ps, c :: cs => p == c && startsWithCL ps cs

/-- Suffix test on strings via reversed character lists; models
`String.prototype.endsWith`. -/
def strEndsWith (s suffix : String) : Bool :=
  startsWithCL suffix.data.reverse s.data.reverse

/-- Substring test (pattern second), modelling `String.prototype.includes`
and used to state facts about emitted SQL fragments. -/
def hasSubstrCL : List Char → List Char → Bool
  | [], pat => startsWithCL pat []
  | c :: cs, pat => startsWithCL pat (c :: cs) || hasSubstrCL cs pat

/-- Substring test lifted to strings. -/
def strContains (s pat : String) : Bool :=
  hasSubstrCL s.data pat.data

/-- Separator characters of the `[-_\s]` class in the PascalCase regex
(ASCII whitespace as matched by JavaScript `\s` on ASCII input). -/
def isSepChar (c : Char) : Bool :=
  c == '-' || c == '_' || c == ' ' || c == '\t' || c == '\n' || c == '\r' ||
    c == '\x0b' || c == '\x0c'

/-- Core of `toPascalCase`: the global replacement
`str.replace(/[-_\s]+(.)?/g, (_, c) => (c ? c.toUpperCase() : ''))` —
every run of separators is removed and the character following the run
(if any) is upper-cased.  Implemented as a single pass whose flag records
that a separator run is pending, so the next character gets upper-cased. -/
def pascalCoreAux : Bool → List Char → List Char
  | _, [] => []
  | upNext, c :: cs =>
    if isSepChar c then pascalCoreAux true cs
    else (if upNext then c.toUpper else c) :: pascalCoreAux false cs

/-- First replacement pass of `toPascalCase`. -/
def pascalCore (l : List Char) : List Char :=
  pascalCoreAux false l

/-- Upper-case the first character of a character list, modelling the second
replacement `.replace(/^(.)/, (c) => c.toUpperCase())`. -/
def upFirst : List Char → List Char
  | [] => []
  | c :: cs => c.toUpper :: cs

/-- Convert string to PascalCase (helpers.ts `toPascalCase`). -/
def toPascalCase (s : String) : String :=
  String.mk (upFirst (pascalCore s.data))

/-- Lower-case the first character of a character list. -/
def downFirst : List Char → List Char
  | [] => []
  | c :: cs => c.toLower :: cs

/-- Convert string to camelCase (helpers.ts `toCamelCase`): PascalCase, then
lower-case the first character. -/
def toCamelCase (s : String) : String :=
  String.mk (downFirst (toPascalCase s).data)

/-- Convert string to plural form (helpers.ts `toPlural`), with the source's
branch order: `y` not preceded by a lowercase vowel, then `s`/`x`/`ch`/`sh`,
then `f`, then `fe`, else append `s`. -/
def toPlural (s : String) : String :=
  if strEndsWith s "y" &&
      !(["ay", "ey", "iy", "oy", "uy"].any (fun v => strEndsWith s v)) then
    String.mk (s.data.dropLast ++ ['i', 'e', 's'])
  else if strEndsWith s "s" || strEndsWith s "x" || strEndsWith s "ch" ||
      strEndsWith s "sh" then
    s ++ "es"
  else if strEndsWith s "f" then
    String.mk (s.data.dropLast ++ ['v', 'e', 's'])
  else if strEndsWith s "fe" then
    String.mk (s.data.dropLast.dropLast ++ ['v', 'e', 's'])
  else
    s ++ "s"

/-- Keep only `[A-Za-z0-9_]` characters (helpers.ts `sanitizeName`). -/
def sanitizeName (s : String) : String :=
  String.mk (s.data.filter (fun c =>
    (('a' ≤ c && c ≤ 'z') || ('A' ≤ c && c ≤ 'Z') ||
     ('0' ≤ c && c ≤ '9') || c == '_')))

/-- Namespace name derived from the model name (helpers.ts `getNamespace`). -/
def getNamespace (modelName : String) : String :=
  toPascalCase (sanitizeName modelName)

/-! Data model, mirroring the zod schemas of `shared/schemas/model.schema.ts`
(cosmetic attributes — color, canvas position, descriptions, the advisory
`order` hint — are not consumed by any generator and are omitted). -/

/-- The 13-member field type enum. -/
inductive FieldType
  | string | int | long | decimal | double | float | bool
  | dateTime | dateOnly | timeOnly | guid | byteArray | json
deriving DecidableEq, Repr

/-- Field constraints value object.  Numeric options model the optional
numbers of the schema; `none` is JS `undefined`. -/
structure FieldConstraints where
  isRequired : Bool := false
  isUnique : Bool := false
  isPrimaryKey : Bool := false
  isAutoGenerated : Bool := false
  maxLength : Option Nat := none
  minLength : Option Nat := none
  precision : Option Nat := none
  scale : Option Nat := none
  defaultValue : Option String := none
  regex : Option String := none
deriving DecidableEq, Repr

/-- JS truthiness of an optional number (`undefined` and `0` are falsy). -/
def truthyNat : Option Nat → Bool
  | none => false
  | some n => n != 0

/-- JS truthiness of an optional string (`undefined` and `""` are falsy). -/
def truthyStr : Option String → Bool
  | none => false
  | some s => s != ""

structure Field where
  id : String
  name : String
  type : FieldType
  constraints : FieldConstraints
deriving DecidableEq, Repr

structure Entity where
  id : String
  name : String
  fields : List Field
  tableName : Option String := none
deriving DecidableEq, Repr

inductive Cardinality
  | oneToOne | oneToMany | manyToMany
deriving DecidableEq, Repr

/-- The relation's `onDelete`/`onUpdate` enum:
`CASCADE | SET NULL | NO ACTION | RESTRICT`. -/
inductive DeleteBehavior
  | cascade | setNull | noAction | restrict
deriving DecidableEq, Repr

structure Relation where
  id : String
  name : String
  sourceEntityId : String
  targetEntityId : String
  cardinality : Cardinality
  onDelete : DeleteBehavior := .noAction
  onUpdate : DeleteBehavior := .noAction
deriving DecidableEq, Repr

structure Index where
  id : String
  name : String
  entityId : String
  fieldIds : List String
  isUnique : Bool := false
  isClustered : Bool := false
deriving DecidableEq, Repr

inductive DatabaseType
  | sqlserver | postgresql | mysql | sqlite
deriving DecidableEq, Repr

structure DataModel where
  id : String
  name : String
  entities : List Entity
  relations : List Relation
  indexes : List Index
deriving DecidableEq, Repr

/-! Static type maps from `generators/types.ts`. -/

/-- C# type mappings (`CSHARP_TYPE_MAP`). -/
def csharpTypeMap : FieldType → String
  | .string => "string"
  | .int => "int"
  | .long => "long"
  | .decimal => "decimal"
  | .double => "double"
  | .float => "float"
  | .bool => "bool"
  | .dateTime => "DateTime"
  | .dateOnly => "DateOnly"
  | .timeOnly => "TimeOnly"
  | .guid => "Guid"
  | .byteArray => "byte[]"
  | .json => "string"

/-- SQL Server type mappings (`SQL_SERVER_TYPE_MAP`). -/
def sqlServerTypeMap : FieldType → String
  | .string => "NVARCHAR"
  | .int => "INT"
  | .long => "BIGINT"
  | .decimal => "DECIMAL"
  | .double => "FLOAT"
  | .float => "REAL"
  | .bool => "BIT"
  | .dateTime => "DATETIME2"
  | .dateOnly => "DATE"
  | .timeOnly => "TIME"
  | .guid => "UNIQUEIDENTIFIER"
  | .byteArray => "VARBINARY(MAX)"
  | .json => "NVARCHAR(MAX)"

/-- PostgreSQL type mappings (`POSTGRES_TYPE_MAP`). -/
def postgresTypeMap : FieldType → String
  | .string => "VARCHAR"
  | .int => "INTEGER"
  | .long => "BIGINT"
  | .decimal => "NUMERIC"
  | .double => "DOUBLE PRECISION"
  | .float => "REAL"
  | .bool => "BOOLEAN"
  | .dateTime => "TIMESTAMP"
  | .dateOnly => "DATE"
  | .timeOnly => "TIME"
  | .guid => "UUID"
  | .byteArray => "BYTEA"
  | .json => "JSONB"

/-- MySQL type mappings (`MYSQL_TYPE_MAP`). -/
def mysqlTypeMap : FieldType → String
  | .string => "VARCHAR"
  | .int => "INT"
  | .long => "BIGINT"
  | .decimal => "DECIMAL"
  | .double => "DOUBLE"
  | .float => "FLOAT"
  | .bool => "TINYINT(1)"
  | .dateTime => "DATETIME"
  | .dateOnly => "DATE"
  | .timeOnly => "TIME"
  | .guid => "CHAR(36)"
  | .byteArray => "LONGBLOB"
  | .json => "JSON"

/-- SQLite type mappings (`SQLITE_TYPE_MAP`). -/
def sqliteTypeMap : FieldType → String
  | .string => "TEXT"
  | .int => "INTEGER"
  | .long => "INTEGER"
  | .decimal => "REAL"
  | .double => "REAL"
  | .float => "REAL"
  | .bool => "INTEGER"
  | .dateTime => "TEXT"
  | .dateOnly => "TEXT"
  | .timeOnly => "TEXT"
  | .guid => "TEXT"
  | .byteArray => "BLOB"
  | .json => "TEXT"

/-- An OpenAPI type+format pair (`OPENAPI_TYPE_MAP` entry). -/
structure OpenApiTypePair where
  type : String
  format : Option String := none
deriving DecidableEq, Repr

/-- OpenAPI type mappings (`OPENAPI_TYPE_MAP`). -/
def openApiTypeMap : FieldType → OpenApiTypePair
  | .string => { type := "string" }
  | .int => { type := "integer", format := some "int32" }
  | .long => { type := "integer", format := some "int64" }
  | .decimal => { type := "number", format := some "decimal" }
  | .double => { type := "number", format := some "double" }
  | .float => { type := "number", format := some "float" }
  | .bool => { type := "boolean" }
  | .dateTime => { type := "string", format := some "date-time" }
  | .dateOnly => { type := "string", format := some "date" }
  | .timeOnly => { type := "string", format := some "time" }
  | .guid => { type := "string", format := some "uuid" }
  | .byteArray => { type := "string", format := some "byte" }
  | .json => { type := "object" }

/-- Delete behavior translation (`DELETE_BEHAVIOR_MAP`), keyed by the
relation's `onDelete` enum value. -/
def deleteBehaviorName : DeleteBehavior → String
  | .cascade => "Cascade"
  | .restrict => "Restrict"
  | .setNull => "SetNull"
  | .noAction => "NoAction"

/-- Selection of the SQL type map by database type (`getSqlTypeMap`). -/
def getSqlTypeMap (dbType : DatabaseType) : FieldType → String :=
  match dbType with
  | .postgresql => postgresTypeMap
  | .mysql => mysqlTypeMap
  | .sqlite => sqliteTypeMap
  | .sqlserver => sqlServerTypeMap

/-! Entity/field helpers from `generators/helpers.ts`. -/

/-- Table name for an entity (helpers.ts `getTableName`):
`entity.tableName || toPlural(entity.name)` with JS truthiness, i.e. the
custom table name when set and non-empty, else the pluralized raw name. -/
def getTableName (entity : Entity) : String :=
  match entity.tableName with
  | some t => if t != "" then t else toPlural entity.name
  | none => toPlural entity.name

/-- C# type for a field (helpers.ts `getCSharpType`): base type from the map,
with `?` appended unless the field is required or a primary key. -/
def getCSharpType (field : Field) : String :=
  let baseType := csharpTypeMap field.type
  let isNullable := !field.constraints.isRequired && !field.constraints.isPrimaryKey
  if isNullable then baseType ++ "?" else baseType

/-- SQL type for a field (helpers.ts `getSqlType`), including the string
max-length and decimal precision special cases. -/
def getSqlType (field : Field) (dbType : DatabaseType) : String :=
  let sqlType := getSqlTypeMap dbType field.type
  let sqlType :=
    if field.type = .string then
      if truthyNat field.constraints.maxLength then
        match dbType with
        | .sqlserver => "NVARCHAR(" ++ toString (field.constraints.maxLength.getD 0) ++ ")"
        | .sqlite => "TEXT"
        | .postgresql => "VARCHAR(" ++ toString (field.constraints.maxLength.getD 0) ++ ")"
        | .mysql => "VARCHAR(" ++ toString (field.constraints.maxLength.getD 0) ++ ")"
      else
        match dbType with
        | .sqlserver => "NVARCHAR(MAX)"
        | .postgresql => "TEXT"
        | .sqlite => "TEXT"
        | .mysql => "TEXT"
    else sqlType
  if field.type = .decimal then
    let precision := field.constraints.precision.getD 18
    let scale := field.constraints.scale.getD 2
    match dbType with
    | .sqlite => "REAL"
    | .sqlserver => "DECIMAL(" ++ toString precision ++ ", " ++ toString scale ++ ")"
    | .postgresql => "DECIMAL(" ++ toString precision ++ ", " ++ toString scale ++ ")"
    | .mysql => "DECIMAL(" ++ toString precision ++ ", " ++ toString scale ++ ")"
  else sqlType

/-- First primary-key field of an entity (helpers.ts `getPrimaryKeyField`). -/
def getPrimaryKeyField (entity : Entity) : Option Field :=
  entity.fields.find? (fun f => f.constraints.isPrimaryKey)

/-- Entity lookup by id (helpers.ts `getEntityById`; the generators call it
with just the entity array). -/
def getEntityById (entities : List Entity) (entityId : String) : Option Entity :=
  entities.find? (fun e => e.id == entityId)

/-- Outgoing relations of an entity (helpers.ts `getEntityRelations`). -/
def outgoingOf (entity : Entity) (relations : List Relation) : List Relation :=
  relations.filter (fun r => r.sourceEntityId == entity.id)

/-- Incoming relations of an entity (helpers.ts `getEntityRelations`). -/
def incomingOf (entity : Entity) (relations : List Relation) : List Relation :=
  relations.filter (fun r => r.targetEntityId == entity.id)

/-- C# default-value expression for a field
(helpers.ts `getDefaultValueExpression`).  A present non-empty token is
interpreted per type; otherwise required strings get an empty-string
initializer. -/
def getDefaultValueExpression (field : Field) : String :=
  let fallback :=
    if field.type = .string && field.constraints.isRequired then
      " = string.Empty;"
    else ""
  match field.constraints.defaultValue with
  | some v =>
    if v != "" then
      match field.type with
      | .string => " = \"" ++ v ++ "\";"
      | .bool => " = " ++ jsToLower v ++ ";"
      | .guid =>
        if jsToLower v == "newguid" || jsToLower v == "newid" then
          " = Guid.NewGuid();"
        else
          " = Guid.Parse(\"" ++ v ++ "\");"
      | .dateTime =>
        if jsToLower v == "now" || jsToLower v == "getdate" then
          " = DateTime.Now;"
        else if jsToLower v == "utcnow" || jsToLower v == "getutcdate" then
          " = DateTime.UtcNow;"
        else ""
      | _ => " = " ++ v ++ ";"
    else fallback
  | none => fallback

/-- Double every backslash, modelling `regex.replace(/\\/g, '\\\\')`. -/
def escapeBackslashes (s : String) : String :=
  String.mk (s.data.flatMap (fun c => if c == '\\' then ['\\', '\\'] else [c]))

/-- C# data annotation attribute list for a field
(helpers.ts `generateFieldAttributes`). -/
def generateFieldAttributes (field : Field) : List String :=
  let keyAttrs :=
    if field.constraints.isPrimaryKey then
      ["[Key]"] ++
        (if field.constraints.isAutoGenerated &&
            (field.type = .int || field.type = .long || field.type = .guid) then
          ["[DatabaseGenerated(DatabaseGeneratedOption.Identity)]"]
        else [])
    else []
  let requiredAttrs :=
    if field.constraints.isRequired && !field.constraints.isPrimaryKey &&
        field.type = .string then
      ["[Required]"]
    else []
  let lengthAttrs :=
    if field.type = .string then
      if truthyNat field.constraints.maxLength && truthyNat field.constraints.minLength then
        ["[StringLength(" ++ toString (field.constraints.maxLength.getD 0) ++
          ", MinimumLength = " ++ toString (field.constraints.minLength.getD 0) ++ ")]"]
      else if truthyNat field.constraints.maxLength then
        ["[MaxLength(" ++ toString (field.constraints.maxLength.getD 0) ++ ")]"]
      else if truthyNat field.constraints.minLength then
        ["[MinLength(" ++ toString (field.constraints.minLength.getD 0) ++ ")]"]
      else []
    else []
  let regexAttrs :=
    match field.constraints.regex with
    | some r =>
      if r != "" then
        ["[RegularExpression(@\"" ++ escapeBackslashes r ++ "\")]"]
      else []
    | none => []
  let precisionAttrs :=
    if field.type = .decimal &&
        (truthyNat field.constraints.precision || truthyNat field.constraints.scale) then
      ["[Precision(" ++ toString (field.constraints.precision.getD 18) ++ ", " ++
        toString (field.constraints.scale.getD 2) ++ ")]"]
    else []
  let jsonAttrs :=
    if field.type = .json then
      ["[Column(TypeName = \"nvarchar(max)\")]"]
    else []
  keyAttrs ++ requiredAttrs ++ lengthAttrs ++ regexAttrs ++ precisionAttrs ++ jsonAttrs

/-- Conventional foreign-key property name for a relationship target
(helpers.ts `getForeignKeyName`). -/
def getForeignKeyName (targetEntity : Entity) : String :=
  toPascalCase targetEntity.name ++ "Id"

/-- Navigation property name (helpers.ts `getNavigationPropertyName`). -/
def getNavigationPropertyName (entity : Entity) (isCollection : Bool) : String :=
  if isCollection then toPlural (toPascalCase entity.name)
  else toPascalCase entity.name

/-- First-occurrence substring replacement, modelling JS
`String.prototype.replace` with a plain-string pattern. -/
def replaceFirstCL (s pat rep : List Char) : List Char :=
  if startsWithCL pat s then rep ++ s.drop pat.length
  else
    match s with
    | [] => []
    | c :: cs => c :: replaceFirstCL cs pat rep
termination_by s.length
decreasing_by simp only [List.length_cons]; omega

/-- First-occurrence substring replacement on strings. -/
def strReplaceFirst (s pat rep : String) : String :=
  String.mk (replaceFirstCL s.data pat.data rep.data)

/-- SQL column definition (helpers.ts `getSqlColumnDefinition`): type,
nullability, primary-key suffix, dialect-specific auto-increment rewriting,
and default clause. -/
def getSqlColumnDefinition (field : Field) (dbType : DatabaseType) : String :=
  let sqlType := getSqlType field dbType
  let nullable :=
    if field.constraints.isRequired || field.constraints.isPrimaryKey then
      "NOT NULL"
    else "NULL"
  let definition := sqlType ++ " " ++ nullable
  let definition :=
    if field.constraints.isPrimaryKey then definition ++ " PRIMARY KEY"
    else definition
  let definition :=
    if field.constraints.isAutoGenerated then
      if field.type = .int || field.type = .long then
        match dbType with
        | .sqlserver => strReplaceFirst definition sqlType (sqlType ++ " IDENTITY(1,1)")
        | .postgresql =>
          let d := strReplaceFirst definition sqlType "SERIAL"
          if field.type = .long then strReplaceFirst d "SERIAL" "BIGSERIAL" else d
        | .mysql => definition ++ " AUTO_INCREMENT"
        | .sqlite =>
          if field.constraints.isPrimaryKey then
            "INTEGER PRIMARY KEY AUTOINCREMENT"
          else definition
      else if field.type = .guid then
        match dbType with
        | .sqlserver => definition ++ " DEFAULT NEWID()"
        | .postgresql => definition ++ " DEFAULT gen_random_uuid()"
        | .mysql => definition ++ " DEFAULT (UUID())"
        | .sqlite => definition
      else definition
    else definition
  if truthyStr field.constraints.defaultValue && !field.constraints.isAutoGenerated then
    let v := field.constraints.defaultValue.getD ""
    if field.type = .string then
      definition ++ " DEFAULT \x27" ++ v ++ "\x27"
    else if field.type = .bool then
      definition ++ " DEFAULT " ++ (if jsToLower v == "true" then "1" else "0")
    else if field.type = .dateTime then
      if jsToLower v == "now" || jsToLower v == "getdate" then
        match dbType with
        | .sqlserver => definition ++ " DEFAULT GETDATE()"
        | .postgresql => definition ++ " DEFAULT CURRENT_TIMESTAMP"
        | .mysql => definition ++ " DEFAULT CURRENT_TIMESTAMP"
        | .sqlite => definition ++ " DEFAULT (datetime(\x27now\x27))"
      else definition
    else
      definition ++ " DEFAULT " ++ v
  else definition

/-- Identifier quoting per dialect (helpers.ts `quoteIdentifier`). -/
def quoteIdentifier (name : String) (dbType : DatabaseType) : String :=
  match dbType with
  | .sqlserver => "[" ++ name ++ "]"
  | .postgresql => "\"" ++ name ++ "\""
  | .mysql => "`" ++ name ++ "`"
  | .sqlite => "\"" ++ name ++ "\""

/-- Join generated lines with newlines (helpers.ts `joinLines`). -/
def joinLines (lines : List String) : String :=
  String.intercalate "\n" lines

/-! EF Core entity generator (`generators/ef-core-generator.ts`). -/

/-- Lines emitted for one declared field property (attributes, then the
property with its default-value expression, then a blank line); indented
lines are written as `"    " ++ rest`. -/
def fieldPropLines (field : Field) : List String :=
  (generateFieldAttributes field).map (fun attr => "    " ++ attr) ++
  ["    " ++ ("public " ++ getCSharpType field ++ " " ++
    toPascalCase field.name ++ " \x7b get; set; \x7d" ++
    getDefaultValueExpression field),
   ""]

/-- The C# type the entity generator gives a synthesized foreign-key
property: the target's primary-key type rendered with `isRequired` forced
off (but `isPrimaryKey` untouched), or `Guid?` when the target has no
primary key. -/
def synthesizedFkType (targetEntity : Entity) : String :=
  match getPrimaryKeyField targetEntity with
  | some pkField =>
    getCSharpType
      { pkField with
        constraints := { pkField.constraints with isRequired := false } }
  | none => "Guid?"

/-- Foreign-key property lines contributed by one outgoing relation inside
`generateEntityClass`: skipped when the target entity is missing, when the
cardinality is many-to-many, or when a declared field already matches the
conventional FK name; otherwise a comment, the synthesized property, and a
blank line. -/
def fkLinesForRel (entity : Entity) (allEntities : List Entity)
    (rel : Relation) : List String :=
  match getEntityById allEntities rel.targetEntityId with
  | none => []
  | some targetEntity =>
    if rel.cardinality = .oneToMany || rel.cardinality = .oneToOne then
      let fkName := getForeignKeyName targetEntity
      let existingFk := entity.fields.find? (fun f =>
        toPascalCase f.name == fkName || f.name == fkName)
      if existingFk.isSome then []
      else
        ["    " ++ ("// Foreign Key to " ++ targetEntity.name),
         "    " ++ ("public " ++ synthesizedFkType targetEntity ++ " " ++
           fkName ++ " \x7b get; set; \x7d"),
         ""]
    else []

/-- Navigation-property lines contributed by one outgoing relation. -/
def navLinesOut (allEntities : List Entity) (rel : Relation) : List String :=
  match getEntityById allEntities rel.targetEntityId with
  | none => []
  | some targetEntity =>
    let targetName := toPascalCase targetEntity.name
    let fkName := getForeignKeyName targetEntity
    (if rel.cardinality = .manyToMany then
      ["    " ++ ("public virtual ICollection<" ++ targetName ++ "> " ++
        toPlural targetName ++ " \x7b get; set; \x7d = new List<" ++
        targetName ++ ">();")]
    else
      ["    " ++ ("[ForeignKey(\"" ++ fkName ++ "\")]"),
       "    " ++ ("public virtual " ++ targetName ++ "? " ++ targetName ++
         " \x7b get; set; \x7d")]) ++ [""]

/-- Navigation-property lines contributed by one incoming relation (incoming
many-to-many intentionally contributes only the trailing blank line; it is
emitted from the other side's outgoing pass). -/
def navLinesIn (allEntities : List Entity) (rel : Relation) : List String :=
  match getEntityById allEntities rel.sourceEntityId with
  | none => []
  | some sourceEntity =>
    let sourceName := toPascalCase sourceEntity.name
    (if rel.cardinality = .oneToMany then
      ["    " ++ ("public virtual ICollection<" ++ sourceName ++ "> " ++
        toPlural sourceName ++ " \x7b get; set; \x7d = new List<" ++
        sourceName ++ ">();")]
    else if rel.cardinality = .oneToOne then
      ["    " ++ ("public virtual " ++ sourceName ++ "? " ++ sourceName ++
        " \x7b get; set; \x7d")]
    else []) ++ [""]

/-- Single entity class (`generateEntityClass`): optional `[Table]`
attribute, class declaration, declared field properties, synthesized
foreign-key properties, navigation properties. -/
def generateEntityClass (entity : Entity) (relations : List Relation)
    (allEntities : List Entity) : List String :=
  let outgoing := outgoingOf entity relations
  let incoming := incomingOf entity relations
  let tableAttrLines :=
    match entity.tableName with
    | some t =>
      if t != "" && t != toPlural entity.name then
        ["[" ++ ("Table(\"" ++ getTableName entity ++ "\")]")]
      else []
    | none => []
  let propsSection :=
    (if entity.fields.length > 0 then ["    " ++ "// Properties"] else []) ++
    entity.fields.flatMap fieldPropLines
  let fkProps := outgoing.flatMap (fkLinesForRel entity allEntities)
  let fkSection :=
    if fkProps.length > 0 then ("    " ++ "// Foreign Keys") :: fkProps
    else []
  let navProps :=
    outgoing.flatMap (navLinesOut allEntities) ++
    incoming.flatMap (navLinesIn allEntities)
  let navSection :=
    if navProps.length > 0 then
      ("    " ++ "// Navigation Properties") :: navProps
    else []
  tableAttrLines ++
  ["public class " ++ toPascalCase entity.name, "\x7b"] ++
  propsSection ++ fkSection ++ navSection ++
  ["\x7d"]

/-- Join per-entity blocks with one blank line between consecutive blocks,
modelling the indexed loop that pushes a separator for all but the last
entity. -/
def joinBlocks : List (List String) → List String
  | [] => []
  | [b] => b
  | b :: bs => b ++ [""] ++ joinBlocks bs

/-- Using statements and namespace header of the entity-classes artifact. -/
def efHeaderLines (model : DataModel) : List String :=
  ["using System;",
   "using System.Collections.Generic;",
   "using System.ComponentModel.DataAnnotations;",
   "using System.ComponentModel.DataAnnotations.Schema;",
   "using Microsoft.EntityFrameworkCore;",
   "",
   "namespace " ++ (getNamespace model.name ++ ".Entities;"),
   ""]

/-- Line list of `generateEFCoreEntities`. -/
def generateEFCoreEntitiesLines (model : DataModel) : List String :=
  efHeaderLines model ++
  joinBlocks (model.entities.map (fun e =>
    generateEntityClass e model.relations model.entities))

/-- All entity classes as one text blob (`generateEFCoreEntities`). -/
def generateEFCoreEntities (model : DataModel) : String :=
  joinLines (generateEFCoreEntitiesLines model)

/-! DbContext generator (`generators/dbcontext-generator.ts`). -/

/-- Relationship-wiring lines contributed by one outgoing relation inside
`generateEntityConfiguration`; skipped when the target entity is missing. -/
def ctxRelationshipLines (entityName : String) (allEntities : List Entity)
    (rel : Relation) : List String :=
  match getEntityById allEntities rel.targetEntityId with
  | none => []
  | some targetEntity =>
    let targetName := toPascalCase targetEntity.name
    let fkName := getForeignKeyName targetEntity
    let deleteBehavior := deleteBehaviorName rel.onDelete
    (match rel.cardinality with
     | .oneToMany =>
       ["            entity.HasOne(e => e." ++ targetName ++ ")",
        "                .WithMany(t => t." ++ toPlural entityName ++ ")",
        "                .HasForeignKey(e => e." ++ fkName ++ ")",
        "                .OnDelete(DeleteBehavior." ++ deleteBehavior ++ ");"]
     | .oneToOne =>
       ["            entity.HasOne(e => e." ++ targetName ++ ")",
        "                .WithOne(t => t." ++ entityName ++ ")",
        "                .HasForeignKey<" ++ entityName ++ ">(e => e." ++
          fkName ++ ")",
        "                .OnDelete(DeleteBehavior." ++ deleteBehavior ++ ");"]
     | .manyToMany =>
       ["            entity.HasMany(e => e." ++ toPlural targetName ++ ")",
        "                .WithMany(t => t." ++ toPlural entityName ++ ")",
        "                .UsingEntity(j => j.ToTable(\"" ++ entityName ++
          targetName ++ "\"));"]) ++ [""]

/-- One entity's configuration block inside `OnModelCreating`
(`generateEntityConfiguration`). -/
def generateEntityConfiguration (entity : Entity) (relations : List Relation)
    (allEntities : List Entity) : List String :=
  let entityName := toPascalCase entity.name
  let tableName := getTableName entity
  let outgoing := outgoingOf entity relations
  let introLines :=
    ["        // " ++ entityName ++ " configuration",
     "        modelBuilder.Entity<" ++ entityName ++ ">(entity =>",
     "        \x7b",
     "            entity.ToTable(\"" ++ tableName ++ "\");",
     ""]
  let pkLines :=
    match getPrimaryKeyField entity with
    | some pkField =>
      ["            entity.HasKey(e => e." ++ toPascalCase pkField.name ++ ");",
       ""]
    | none => []
  let uniqueFields := entity.fields.filter (fun f =>
    f.constraints.isUnique && !f.constraints.isPrimaryKey)
  let uniqueLines :=
    if uniqueFields.length > 0 then
      "            // Unique constraints" ::
        uniqueFields.flatMap (fun f =>
          ["            entity.HasIndex(e => e." ++ toPascalCase f.name ++ ")",
           "                .IsUnique();"]) ++ [""]
    else []
  let fieldsNeedingConfig := entity.fields.filter (fun f =>
    (f.type = .decimal &&
      (truthyNat f.constraints.precision || truthyNat f.constraints.scale)) ||
    f.type = .json)
  let propConfigLines :=
    if fieldsNeedingConfig.length > 0 then
      "            // Property configurations" ::
        fieldsNeedingConfig.flatMap (fun f =>
          (if f.type = .decimal then
            ["            entity.Property(e => e." ++ toPascalCase f.name ++ ")",
             "                .HasPrecision(" ++
               toString (f.constraints.precision.getD 18) ++ ", " ++
               toString (f.constraints.scale.getD 2) ++ ");"]
          else []) ++
          (if f.type = .json then
            ["            entity.Property(e => e." ++ toPascalCase f.name ++ ")",
             "                .HasColumnType(\"nvarchar(max)\");"]
          else [])) ++ [""]
    else []
  let relLines :=
    if outgoing.length > 0 then
      "            // Relationships" ::
        outgoing.flatMap (ctxRelationshipLines entityName allEntities)
    else []
  introLines ++ pkLines ++ uniqueLines ++ propConfigLines ++ relLines ++
  ["        \x7d);"]

/-- Standalone index-configuration lines for one model-level index; skipped
when its entity is missing or none of its field ids resolve. -/
def indexConfigLines (index : Index) (entities : List Entity) : List String :=
  match entities.find? (fun e => e.id == index.entityId) with
  | none => []
  | some entity =>
    let entityName := toPascalCase entity.name
    let names := (index.fieldIds.filterMap (fun fid =>
      (entity.fields.find? (fun f => f.id == fid)).map Field.name)).filter
      (fun n => n != "")
    let fieldNames := names.map (fun n => "e." ++ toPascalCase n)
    if fieldNames.length = 0 then []
    else
      let indexExpr :=
        if fieldNames.length = 1 then fieldNames.headD ""
        else "new \x7b " ++ String.intercalate ", " fieldNames ++ " \x7d"
      ["        modelBuilder.Entity<" ++ entityName ++ ">()",
       "            .HasIndex(e => " ++ indexExpr ++ ")"] ++
      (if index.isUnique then ["            .IsUnique()"] else []) ++
      (if index.isClustered then ["            .IsClustered()"] else []) ++
      ["            .HasDatabaseName(\"" ++ index.name ++ "\");",
       ""]

/-- Index-configuration section (`generateIndexConfigurations`): a header
comment when any index exists, then the per-index lines. -/
def generateIndexConfigurations (indexes : List Index)
    (entities : List Entity) : List String :=
  if indexes.length = 0 then []
  else
    "        // Index configurations" ::
      indexes.flatMap (fun i => indexConfigLines i entities)

/-- Typed collection accessor line for one entity in the DbContext:
`DbSet<PascalName> PluralPascalName`. -/
def dbSetLine (entity : Entity) : String :=
  "    public DbSet<" ++ toPascalCase entity.name ++ "> " ++
    toPlural (toPascalCase entity.name) ++ " \x7b get; set; \x7d = null!;"

/-- Line list of `generateDbContext`. -/
def generateDbContextLines (model : DataModel) : List String :=
  let ns := getNamespace model.name
  let contextName := ns ++ "DbContext"
  ["using Microsoft.EntityFrameworkCore;",
   "using " ++ ns ++ ".Entities;",
   "",
   "namespace " ++ ns ++ ".Data;",
   "",
   "public class " ++ contextName ++ " : DbContext",
   "\x7b",
   "    public " ++ contextName ++ "(DbContextOptions<" ++ contextName ++
     "> options) : base(options)",
   "    \x7b",
   "    \x7d",
   "",
   "    // DbSet properties"] ++
  model.entities.map dbSetLine ++
  ["",
   "    protected override void OnModelCreating(ModelBuilder modelBuilder)",
   "    \x7b",
   "        base.OnModelCreating(modelBuilder);",
   ""] ++
  model.entities.flatMap (fun e =>
    generateEntityConfiguration e model.relations model.entities ++ [""]) ++
  generateIndexConfigurations model.indexes model.entities ++
  ["    \x7d", "\x7d"]

/-- Complete DbContext class artifact (`generateDbContext`). -/
def generateDbContext (model : DataModel) : String :=
  joinLines (generateDbContextLines model)

/-! Controller generator (`controller-generator.ts`). -/

/-- CRUD controller lines for a single entity (`generateEntityController`). -/
def generateEntityController (entity : Entity) : List String :=
  let entityName := toPascalCase entity.name
  let entityNamePlural := toPlural entityName
  let entityNameCamel := toCamelCase entity.name
  let pkField := getPrimaryKeyField entity
  let pkType :=
    match pkField with
    | some f => csharpTypeMap f.type
    | none => "Guid"
  let pkName :=
    match pkField with
    | some f => toPascalCase f.name
    | none => "Id"
  ["[" ++ "ApiController]",
   "[" ++ "Route(\"api/[controller]\")]",
   "[" ++ "Produces(\"application/json\")]",
   "public class " ++ (entityNamePlural ++ "Controller : ControllerBase"),
   "\x7b",
   "    " ++ ("private readonly I" ++ entityName ++ "Service _" ++
     entityNameCamel ++ "Service;"),
   "    " ++ ("private readonly ILogger<" ++ entityNamePlural ++
     "Controller> _logger;"),
   "",
   "    " ++ ("public " ++ entityNamePlural ++ "Controller("),
   "    " ++ ("    I" ++ entityName ++ "Service " ++ entityNameCamel ++
     "Service,"),
   "    " ++ ("    ILogger<" ++ entityNamePlural ++ "Controller> logger)"),
   "    " ++ "\x7b",
   "    " ++ ("    _" ++ entityNameCamel ++ "Service = " ++ entityNameCamel ++
     "Service;"),
   "    " ++ "    _logger = logger;",
   "    " ++ "\x7d",
   "",
   "    " ++ "/// <summary>",
   "    " ++ ("/// Get all " ++ entityNamePlural),
   "    " ++ "/// </summary>",
   "    " ++ "[HttpGet]",
   "    " ++ ("[ProducesResponseType(typeof(IEnumerable<" ++ entityName ++
     "ResponseDto>), StatusCodes.Status200OK)]"),
   "    " ++ ("public async Task<ActionResult<IEnumerable<" ++ entityName ++
     "ResponseDto>>> GetAll("),
   "    " ++ "    [FromQuery] int page = 1,",
   "    " ++ "    [FromQuery] int pageSize = 20)",
   "    " ++ "\x7b",
   "    " ++ ("    var items = await _" ++ entityNameCamel ++
     "Service.GetAllAsync(page, pageSize);"),
   "    " ++ "    return Ok(items);",
   "    " ++ "\x7d",
   "",
   "    " ++ "/// <summary>",
   "    " ++ ("/// Get " ++ entityName ++ " by ID"),
   "    " ++ "/// </summary>",
   "    " ++ "[HttpGet(\"\x7bid\x7d\")]",
   "    " ++ ("[ProducesResponseType(typeof(" ++ entityName ++
     "ResponseDto), StatusCodes.Status200OK)]"),
   "    " ++ "[ProducesResponseType(StatusCodes.Status404NotFound)]",
   "    " ++ ("public async Task<ActionResult<" ++ entityName ++
     "ResponseDto>> GetById(" ++ pkType ++ " id)"),
   "    " ++ "\x7b",
   "    " ++ ("    var item = await _" ++ entityNameCamel ++
     "Service.GetByIdAsync(id);"),
   "    " ++ "    if (item == null)",
   "    " ++ "    \x7b",
   "    " ++ ("        _logger.LogWarning(\"" ++ entityName ++
     " with ID \x7bId\x7d not found\", id);"),
   "    " ++ "        return NotFound();",
   "    " ++ "    \x7d",
   "    " ++ "    return Ok(item);",
   "    " ++ "\x7d",
   "",
   "    " ++ "/// <summary>",
   "    " ++ ("/// Create a new " ++ entityName),
   "    " ++ "/// </summary>",
   "    " ++ "[HttpPost]",
   "    " ++ ("[ProducesResponseType(typeof(" ++ entityName ++
     "ResponseDto), StatusCodes.Status201Created)]"),
   "    " ++ "[ProducesResponseType(StatusCodes.Status400BadRequest)]",
   "    " ++ ("public async Task<ActionResult<" ++ entityName ++
     "ResponseDto>> Create([FromBody] Create" ++ entityName ++ "Dto dto)"),
   "    " ++ "\x7b",
   "    " ++ "    if (!ModelState.IsValid)",
   "    " ++ "    \x7b",
   "    " ++ "        return BadRequest(ModelState);",
   "    " ++ "    \x7d",
   "",
   "    " ++ ("    var item = await _" ++ entityNameCamel ++
     "Service.CreateAsync(dto);"),
   "    " ++ ("    _logger.LogInformation(\"Created " ++ entityName ++
     " with ID \x7bId\x7d\", item." ++ pkName ++ ");"),
   "    " ++ ("    return CreatedAtAction(nameof(GetById), new \x7b id = item." ++
     pkName ++ " \x7d, item);"),
   "    " ++ "\x7d",
   "",
   "    " ++ "/// <summary>",
   "    " ++ ("/// Update an existing " ++ entityName),
   "    " ++ "/// </summary>",
   "    " ++ "[HttpPut(\"\x7bid\x7d\")]",
   "    " ++ ("[ProducesResponseType(typeof(" ++ entityName ++
     "ResponseDto), StatusCodes.Status200OK)]"),
   "    " ++ "[ProducesResponseType(StatusCodes.Status404NotFound)]",
   "    " ++ "[ProducesResponseType(StatusCodes.Status400BadRequest)]",
   "    " ++ ("public async Task<ActionResult<" ++ entityName ++
     "ResponseDto>> Update(" ++ pkType ++ " id, [FromBody] Update" ++
     entityName ++ "Dto dto)"),
   "    " ++ "\x7b",
   "    " ++ "    if (!ModelState.IsValid)",
   "    " ++ "    \x7b",
   "    " ++ "        return BadRequest(ModelState);",
   "    " ++ "    \x7d",
   "",
   "    " ++ ("    var item = await _" ++ entityNameCamel ++
     "Service.UpdateAsync(id, dto);"),
   "    " ++ "    if (item == null)",
   "    " ++ "    \x7b",
   "    " ++ ("        _logger.LogWarning(\"" ++ entityName ++
     " with ID \x7bId\x7d not found for update\", id);"),
   "    " ++ "        return NotFound();",
   "    " ++ "    \x7d",
   "",
   "    " ++ ("    _logger.LogInformation(\"Updated " ++ entityName ++
     " with ID \x7bId\x7d\", id);"),
   "    " ++ "    return Ok(item);",
   "    " ++ "\x7d",
   "",
   "    " ++ "/// <summary>",
   "    " ++ ("/// Delete a " ++ entityName),
   "    " ++ "/// </summary>",
   "    " ++ "[HttpDelete(\"\x7bid\x7d\")]",
   "    " ++ "[ProducesResponseType(StatusCodes.Status204NoContent)]",
   "    " ++ "[ProducesResponseType(StatusCodes.Status404NotFound)]",
   "    " ++ ("public async Task<ActionResult> Delete(" ++ pkType ++ " id)"),
   "    " ++ "\x7b",
   "    " ++ ("    var success = await _" ++ entityNameCamel ++
     "Service.DeleteAsync(id);"),
   "    " ++ "    if (!success)",
   "    " ++ "    \x7b",
   "    " ++ ("        _logger.LogWarning(\"" ++ entityName ++
     " with ID \x7bId\x7d not found for deletion\", id);"),
   "    " ++ "        return NotFound();",
   "    " ++ "    \x7d",
   "",
   "    " ++ ("    _logger.LogInformation(\"Deleted " ++ entityName ++
     " with ID \x7bId\x7d\", id);"),
   "    " ++ "    return NoContent();",
   "    " ++ "\x7d",
   "\x7d"]

/-- Line list of `generateControllers`: a placeholder comment for an empty
model, else usings, namespace, and one controller block per entity. -/
def generateControllersLines (model : DataModel) : List String :=
  if model.entities.length = 0 then
    ["// No entities to generate controllers for"]
  else
    let ns := getNamespace model.name
    ["using Microsoft.AspNetCore.Http;",
     "using Microsoft.AspNetCore.Mvc;",
     "using Microsoft.Extensions.Logging;",
     "using " ++ (ns ++ ".DTOs;"),
     "using " ++ (ns ++ ".Services;"),
     "",
     "namespace " ++ (ns ++ ".Controllers;"),
     ""] ++
    joinBlocks (model.entities.map generateEntityController)

/-- Controllers artifact (`generateControllers`). -/
def generateControllers (model : DataModel) : String :=
  joinLines (generateControllersLines model)

/-! OpenAPI generator (`generators/openapi-generator.ts`).  JS object
records (`components.schemas`, `paths`, per-schema `properties`) are
modelled as association lists with insert-or-overwrite semantics that keep
the first-insertion position, matching `obj[key] = value` assignment and
object-spread merging. -/

/-- Insert-or-overwrite into a JS-object-style association list. -/
def recInsert (k : String) (v : α) : List (String × α) → List (String × α)
  | [] => [(k, v)]
  | (k2, v2) :: rest =>
    if k2 == k then (k2, v) :: rest else (k2, v2) :: recInsert k v rest

/-- Key lookup in a JS-object-style association list. -/
def lookupA (k : String) : List (String × α) → Option α
  | [] => none
  | (k2, v2) :: rest => if k2 == k then some v2 else lookupA k rest

/-- Insert a list of entries in order (object-spread merge). -/
def insertEntries : List (String × α) → List (String × α) → List (String × α)
  | [], acc => acc
  | (k, v) :: rest, acc => insertEntries rest (recInsert k v acc)

/-- One property schema of the OpenAPI document (`OpenAPISchema`); absent
JSON members are `none`. -/
structure OpenAPISchema where
  type : String
  format : Option String := none
  nullable : Option Bool := none
  minLength : Option Nat := none
  maxLength : Option Nat := none
  pattern : Option String := none
  dflt : Option String := none
deriving DecidableEq, Repr

/-- OpenAPI schema for a field (`getOpenAPIType`): type/format from the map,
`nullable: true` for non-required fields, length bounds kept when present
(`!== undefined`), pattern and default kept when truthy. -/
def getOpenAPIType (field : Field) : OpenAPISchema :=
  let typeInfo := openApiTypeMap field.type
  { type := typeInfo.type
    format := typeInfo.format
    nullable := if !field.constraints.isRequired then some true else none
    minLength := field.constraints.minLength
    maxLength := field.constraints.maxLength
    pattern :=
      match field.constraints.regex with
      | some r => if r != "" then some r else none
      | none => none
    dflt :=
      match field.constraints.defaultValue with
      | some v => if v != "" then some v else none
      | none => none }

/-- OpenAPI schema for a primary key (`getPkOpenAPIType`): uuid string when
the entity has no primary key. -/
def getPkOpenAPIType (field : Option Field) : OpenAPISchema :=
  match field with
  | none => { type := "string", format := some "uuid" }
  | some f =>
    let typeInfo := openApiTypeMap f.type
    { type := typeInfo.type, format := typeInfo.format }

/-- Component schema of an object (`OpenAPIObjectSchema`): the optional
`required` name array and the `properties` record. -/
structure OpenAPIObjectSchema where
  required : Option (List String) := none
  properties : List (String × OpenAPISchema) := []
deriving DecidableEq, Repr

/-- Property record after the declared-field pass of the Response schema. -/
def insertFieldProps : List Field → List (String × OpenAPISchema) →
    List (String × OpenAPISchema)
  | [], acc => acc
  | f :: fs, acc =>
    insertFieldProps fs (recInsert (toCamelCase f.name) (getOpenAPIType f) acc)

/-- Property record after the declared-field pass of the Create schema
(primary-key fields skipped). -/
def insertCreateFieldProps : List Field → List (String × OpenAPISchema) →
    List (String × OpenAPISchema)
  | [], acc => acc
  | f :: fs, acc =>
    insertCreateFieldProps fs
      (if f.constraints.isPrimaryKey then acc
       else recInsert (toCamelCase f.name) (getOpenAPIType f) acc)

/-- Property record after the declared-field pass of the Update schema
(primary-key fields skipped, every schema forced nullable). -/
def insertUpdateFieldProps : List Field → List (String × OpenAPISchema) →
    List (String × OpenAPISchema)
  | [], acc => acc
  | f :: fs, acc =>
    insertUpdateFieldProps fs
      (if f.constraints.isPrimaryKey then acc
       else recInsert (toCamelCase f.name)
         { getOpenAPIType f with nullable := some true } acc)

/-- Relations whose source side is the given entity
(`model.relations.filter(r => r.sourceEntityId === entity.id)`). -/
def fkRelationsFrom (entity : Entity) (model : DataModel) : List Relation :=
  model.relations.filter (fun r => r.sourceEntityId == entity.id)

/-- Foreign-key pass shared by the three schema builders: for every
one-to-one/one-to-many relation from the entity whose target exists, insert
a nullable property named after the camelCased conventional FK name, typed
as the target's primary key. -/
def insertFkProps (model : DataModel) : List Relation →
    List (String × OpenAPISchema) → List (String × OpenAPISchema)
  | [], acc => acc
  | r :: rs, acc =>
    insertFkProps model rs
      (if r.cardinality = .oneToMany || r.cardinality = .oneToOne then
        match getEntityById model.entities r.targetEntityId with
        | some targetEntity =>
          recInsert (toCamelCase (getForeignKeyName targetEntity))
            { getPkOpenAPIType (getPrimaryKeyField targetEntity) with
              nullable := some true } acc
        | none => acc
      else acc)

/-- Response component schema of an entity (`generateEntitySchema`):
every field, `required` listing the fields that are required or primary
keys, plus the FK pass. -/
def generateEntitySchema (entity : Entity) (model : DataModel) :
    OpenAPIObjectSchema :=
  let props :=
    insertFkProps model (fkRelationsFrom entity model)
      (insertFieldProps entity.fields [])
  let required :=
    (entity.fields.filter (fun f =>
      f.constraints.isRequired || f.constraints.isPrimaryKey)).map
      (fun f => toCamelCase f.name)
  { required := if required.length > 0 then some required else none
    properties := props }

/-- Create component schema of an entity (`generateCreateDtoSchema`):
non-PK fields, `required` listing the required ones, plus the FK pass. -/
def generateCreateDtoSchema (entity : Entity) (model : DataModel) :
    OpenAPIObjectSchema :=
  let props :=
    insertFkProps model (fkRelationsFrom entity model)
      (insertCreateFieldProps entity.fields [])
  let required :=
    (entity.fields.filter (fun f =>
      !f.constraints.isPrimaryKey && f.constraints.isRequired)).map
      (fun f => toCamelCase f.name)
  { required := if required.length > 0 then some required else none
    properties := props }

/-- Update component schema of an entity (`generateUpdateDtoSchema`):
non-PK fields all nullable, no `required` array, plus the FK pass. -/
def generateUpdateDtoSchema (entity : Entity) (model : DataModel) :
    OpenAPIObjectSchema :=
  let props :=
    insertFkProps model (fkRelationsFrom entity model)
      (insertUpdateFieldProps entity.fields [])
  { required := none, properties := props }

/-- One operation of a path item; operation bodies (parameters, request and
response payload descriptions) are not modelled, as no property below
concerns them — only path keys and operation identities. -/
structure Operation where
  tags : List String
  summary : String
  operationId : String
deriving DecidableEq, Repr

/-- One path item of the OpenAPI `paths` record. -/
structure PathItem where
  getOp : Option Operation := none
  postOp : Option Operation := none
  putOp : Option Operation := none
  deleteOp : Option Operation := none
deriving DecidableEq, Repr

/-- The two path items of an entity (`generateEntityPaths`): the collection
path and the `{id}` item path, keyed by camelCased pluralized name. -/
def generateEntityPaths (entity : Entity) : List (String × PathItem) :=
  let entityName := toPascalCase entity.name
  let entityNamePlural := toPlural entityName
  let entityNameLower := toCamelCase entityNamePlural
  let collectionPath := "/api/" ++ entityNameLower
  let itemPath := collectionPath ++ "/\x7bid\x7d"
  [(collectionPath,
    { getOp := some
        { tags := [entityNamePlural]
          summary := "Get all " ++ entityNamePlural
          operationId := "getAll" ++ entityNamePlural }
      postOp := some
        { tags := [entityNamePlural]
          summary := "Create a new " ++ entityName
          operationId := "create" ++ entityName } }),
   (itemPath,
    { getOp := some
        { tags := [entityNamePlural]
          summary := "Get " ++ entityName ++ " by ID"
          operationId := "get" ++ entityName ++ "ById" }
      putOp := some
        { tags := [entityNamePlural]
          summary := "Update " ++ entityName
          operationId := "update" ++ entityName }
      deleteOp := some
        { tags := [entityNamePlural]
          summary := "Delete " ++ entityName
          operationId := "delete" ++ entityName } })]

/-- The `components.schemas` record: for each entity in model order, the
Response, Create, and Update schemas are assigned under their conventional
names. -/
def buildSchemas (model : DataModel) : List Entity →
    List (String × OpenAPIObjectSchema) → List (String × OpenAPIObjectSchema)
  | [], acc => acc
  | e :: rest, acc =>
    let n := toPascalCase e.name
    buildSchemas model rest
      (recInsert ("Update" ++ n ++ "Dto") (generateUpdateDtoSchema e model)
        (recInsert ("Create" ++ n ++ "Dto") (generateCreateDtoSchema e model)
          (recInsert (n ++ "ResponseDto") (generateEntitySchema e model) acc)))

/-- The `paths` record, merged entity by entity with object spread. -/
def buildPaths : List Entity → List (String × PathItem) →
    List (String × PathItem)
  | [], acc => acc
  | e :: rest, acc => buildPaths rest (insertEntries (generateEntityPaths e) acc)

/-- The structured OpenAPI document (`generateOpenAPI` before JSON
serialization), including the minimal empty-model document. -/
structure OpenAPIDocument where
  openapi : String
  title : String
  description : String
  version : String
  servers : List (String × String)
  paths : List (String × PathItem)
  schemas : List (String × OpenAPIObjectSchema)
deriving DecidableEq, Repr

/-- Structured document built by `generateOpenAPI`. -/
def generateOpenAPIDoc (model : DataModel) : OpenAPIDocument :=
  if model.entities.length = 0 then
    { openapi := "3.0.3"
      title := model.name ++ " API"
      description := "No entities defined"
      version := "1.0.0"
      servers := []
      paths := []
      schemas := [] }
  else
    { openapi := "3.0.3"
      title := model.name ++ " API"
      description := "API for " ++ model.name ++ " data model"
      version := "1.0.0"
      servers :=
        [("https://api.example.com/v1", "Production server"),
         ("http://localhost:5000", "Development server")]
      paths := buildPaths model.entities []
      schemas := buildSchemas model model.entities [] }

/-- OpenAPI artifact (`generateOpenAPI`).  The source serializes the
document with `JSON.stringify(doc, null, 2)`; the concrete JSON text is
abstracted here by the derived deterministic rendering of the structured
document, since no property stated below concerns JSON syntax. -/
def generateOpenAPI (model : DataModel) : String :=
  toString (repr (generateOpenAPIDoc model))

/-! Generators whose source files are not present in the repository
snapshot (`dto-generator.ts`, `repository-generator.ts`,
`sql-generator.ts`); they are modelled from the specification so that the
dispatching facade below is total over all eleven artifact kinds.  Each is
a pure function of the model snapshot, as §5 requires of every generator. -/

/-- Dialect name used in the SQL artifact header. -/
def dbTypeName : DatabaseType → String
  | .sqlserver => "sqlserver"
  | .postgresql => "postgresql"
  | .mysql => "mysql"
  | .sqlite => "sqlite"

/-- SQL keyword for a relation's onDelete behavior. -/
def sqlDeleteKeyword : DeleteBehavior → String
  | .cascade => "CASCADE"
  | .restrict => "RESTRICT"
  | .setNull => "SET NULL"
  | .noAction => "NO ACTION"

/-- Modelled from the spec: the SQL DDL generator source
(`generators/sql-generator.ts`) is missing from src/.  Per §4.10 one
algorithm parameterized by dialect emits optional guarded DROP statements
per entity, one CREATE TABLE per entity with every field rendered through
the column-definition renderer, ALTER-TABLE-ADD-FOREIGN-KEY statements for
every one-to-one/one-to-many relation with both endpoints present (with the
configured onDelete keyword), and CREATE INDEX statements for every
model-level index, with dialect-specific identifier quoting throughout. -/
def generateSQLLines (model : DataModel) (dbType : DatabaseType)
    (includeDrops : Bool) : List String :=
  let headerLines :=
    ["-- " ++ model.name ++ " migration script (" ++ dbTypeName dbType ++ ")",
     ""]
  let dropLines :=
    if includeDrops then
      model.entities.map (fun e =>
        "DROP TABLE IF EXISTS " ++ quoteIdentifier (getTableName e) dbType ++
          ";") ++ [""]
    else []
  let createLines := model.entities.flatMap (fun e =>
    ["CREATE TABLE " ++ quoteIdentifier (getTableName e) dbType ++ " ("] ++
    (e.fields.map (fun f =>
      "    " ++ quoteIdentifier f.name dbType ++ " " ++
        getSqlColumnDefinition f dbType ++ ",")) ++
    [");", ""])
  let fkLines := model.relations.flatMap (fun r =>
    if r.cardinality = .oneToOne || r.cardinality = .oneToMany then
      match getEntityById model.entities r.sourceEntityId,
          getEntityById model.entities r.targetEntityId with
      | some s, some t =>
        let pkName :=
          match getPrimaryKeyField t with
          | some pk => pk.name
          | none => "Id"
        ["ALTER TABLE " ++ quoteIdentifier (getTableName s) dbType ++
          " ADD FOREIGN KEY (" ++
          quoteIdentifier (getForeignKeyName t) dbType ++ ") REFERENCES " ++
          quoteIdentifier (getTableName t) dbType ++ " (" ++
          quoteIdentifier pkName dbType ++ ") ON DELETE " ++
          sqlDeleteKeyword r.onDelete ++ ";"]
      | _, _ => []
    else [])
  let ixLines := model.indexes.flatMap (fun ix =>
    match getEntityById model.entities ix.entityId with
    | some e =>
      let cols := ix.fieldIds.filterMap (fun fid =>
        (e.fields.find? (fun f => f.id == fid)).map
          (fun f => quoteIdentifier f.name dbType))
      if cols.length = 0 then []
      else
        ["CREATE " ++ (if ix.isUnique then "UNIQUE " else "") ++ "INDEX " ++
          quoteIdentifier ix.name dbType ++ " ON " ++
          quoteIdentifier (getTableName e) dbType ++ " (" ++
          String.intercalate ", " cols ++ ");"]
    | none => [])
  headerLines ++ dropLines ++ createLines ++ fkLines ++ ixLines

/-- Modelled from the spec: SQL Server entry point of the missing
`sql-generator.ts`. -/
def generateSqlServerSQL (model : DataModel) (includeDrops : Bool) : String :=
  joinLines (generateSQLLines model .sqlserver includeDrops)

/-- Modelled from the spec: PostgreSQL entry point of the missing
`sql-generator.ts`. -/
def generatePostgresSQL (model : DataModel) (includeDrops : Bool) : String :=
  joinLines (generateSQLLines model .postgresql includeDrops)

/-- Modelled from the spec: MySQL entry point of the missing
`sql-generator.ts`. -/
def generateMySQLSQL (model : DataModel) (includeDrops : Bool) : String :=
  joinLines (generateSQLLines model .mysql includeDrops)

/-- Modelled from the spec: SQLite entry point of the missing
`sql-generator.ts`. -/
def generateSQLiteSQL (model : DataModel) (includeDrops : Bool) : String :=
  joinLines (generateSQLLines model .sqlite includeDrops)

/-- Modelled from the spec: the foreign-key properties of the missing DTO
generator (`generators/dto-generator.ts` is not in src/).  Per §4.7 the
Create and Response shapes include FK fields carrying the same conventional
property name as §4.5 step 2: for every outgoing one-to-one/one-to-many
relation with an existing target and no declared field already matching
the name, a nullable property typed as the target's primary-key type
(default Guid when the target has no primary key). -/
def dtoFkPropLines (entity : Entity) (model : DataModel) : List String :=
  model.relations.flatMap (fun r =>
    if r.sourceEntityId == entity.id &&
        (r.cardinality = Cardinality.oneToMany ||
         r.cardinality = Cardinality.oneToOne) then
      match getEntityById model.entities r.targetEntityId with
      | some target =>
        let fkName := getForeignKeyName target
        let fkType :=
          match getPrimaryKeyField target with
          | some pk => csharpTypeMap pk.type ++ "?"
          | none => "Guid?"
        if (entity.fields.find? (fun f =>
            toPascalCase f.name == fkName || f.name == fkName)).isSome then []
        else
          ["    public " ++ fkType ++ " " ++ fkName ++ " \x7b get; set; \x7d"]
      | none => []
    else [])

/-- Modelled from the spec: the DTO generator source
(`generators/dto-generator.ts`) is missing from src/.  Per §4.7 it emits,
for every entity, a Create shape (all non-PK fields, FK fields included,
required kept required), an Update shape (all non-PK fields optional), and
a Response shape (every field including the PK, FK fields included), with
§4.4 annotations mirrored on the write shapes. -/
def generateDTOs (model : DataModel) : List String :=
  let ns := getNamespace model.name
  ["using System;",
   "using System.ComponentModel.DataAnnotations;",
   "",
   "namespace " ++ ns ++ ".DTOs;",
   ""] ++
  model.entities.flatMap (fun e =>
    let n := toPascalCase e.name
    ["public class Create" ++ n ++ "Dto",
     "\x7b"] ++
    (e.fields.filter (fun f => !f.constraints.isPrimaryKey)).flatMap
      fieldPropLines ++
    dtoFkPropLines e model ++
    ["\x7d",
     "",
     "public class Update" ++ n ++ "Dto",
     "\x7b"] ++
    (e.fields.filter (fun f => !f.constraints.isPrimaryKey)).map (fun f =>
      "    public " ++ csharpTypeMap f.type ++ "? " ++ toPascalCase f.name ++
        " \x7b get; set; \x7d") ++
    ["\x7d",
     "",
     "public class " ++ n ++ "ResponseDto",
     "\x7b"] ++
    e.fields.map (fun f =>
      "    public " ++ getCSharpType f ++ " " ++ toPascalCase f.name ++
        " \x7b get; set; \x7d") ++
    dtoFkPropLines e model ++
    ["\x7d",
     ""])

/-! Repository and service-layer generator.  Its source is present in the
repository snapshot, concatenated after the OpenAPI generator inside
`generators/openapi-generator.ts`; embedded here function by function. -/

/-- Generic repository interface lines (`generateIRepository`). -/
def generateIRepository : List String :=
  ["/// <summary>",
   "/// Generic repository interface",
   "/// </summary>",
   "public interface IRepository<T> where T : class",
   "\x7b",
   "    Task<T?> GetByIdAsync<TKey>(TKey id, CancellationToken cancellationToken = default);",
   "    Task<IEnumerable<T>> GetAllAsync(CancellationToken cancellationToken = default);",
   "    Task<IEnumerable<T>> GetPagedAsync(int page, int pageSize, CancellationToken cancellationToken = default);",
   "    Task<IEnumerable<T>> FindAsync(Expression<Func<T, bool>> predicate, CancellationToken cancellationToken = default);",
   "    Task<T?> FirstOrDefaultAsync(Expression<Func<T, bool>> predicate, CancellationToken cancellationToken = default);",
   "    Task<bool> AnyAsync(Expression<Func<T, bool>> predicate, CancellationToken cancellationToken = default);",
   "    Task<int> CountAsync(CancellationToken cancellationToken = default);",
   "    Task<int> CountAsync(Expression<Func<T, bool>> predicate, CancellationToken cancellationToken = default);",
   "    Task<T> AddAsync(T entity, CancellationToken cancellationToken = default);",
   "    Task<IEnumerable<T>> AddRangeAsync(IEnumerable<T> entities, CancellationToken cancellationToken = default);",
   "    Task UpdateAsync(T entity, CancellationToken cancellationToken = default);",
   "    Task DeleteAsync(T entity, CancellationToken cancellationToken = default);",
   "    Task DeleteRangeAsync(IEnumerable<T> entities, CancellationToken cancellationToken = default);",
   "\x7d"]

/-- Generic repository implementation lines (`generateRepository`). -/
def generateRepository (dbContextName : String) : List String :=
  ["/// <summary>",
   "/// Generic repository implementation",
   "/// </summary>",
   "public class Repository<T> : IRepository<T> where T : class",
   "\x7b",
   "    protected readonly " ++ dbContextName ++ " _context;",
   "    protected readonly DbSet<T> _dbSet;",
   "",
   "    public Repository(" ++ dbContextName ++ " context)",
   "    \x7b",
   "        _context = context;",
   "        _dbSet = context.Set<T>();",
   "    \x7d",
   "",
   "    public virtual async Task<T?> GetByIdAsync<TKey>(TKey id, CancellationToken cancellationToken = default)",
   "    \x7b",
   "        return await _dbSet.FindAsync(new object[] \x7b id! \x7d, cancellationToken);",
   "    \x7d",
   "",
   "    public virtual async Task<IEnumerable<T>> GetAllAsync(CancellationToken cancellationToken = default)",
   "    \x7b",
   "        return await _dbSet.ToListAsync(cancellationToken);",
   "    \x7d",
   "",
   "    public virtual async Task<IEnumerable<T>> GetPagedAsync(int page, int pageSize, CancellationToken cancellationToken = default)",
   "    \x7b",
   "        return await _dbSet",
   "            .Skip((page - 1) * pageSize)",
   "            .Take(pageSize)",
   "            .ToListAsync(cancellationToken);",
   "    \x7d",
   "",
   "    public virtual async Task<IEnumerable<T>> FindAsync(Expression<Func<T, bool>> predicate, CancellationToken cancellationToken = default)",
   "    \x7b",
   "        return await _dbSet.Where(predicate).ToListAsync(cancellationToken);",
   "    \x7d",
   "",
   "    public virtual async Task<T?> FirstOrDefaultAsync(Expression<Func<T, bool>> predicate, CancellationToken cancellationToken = default)",
   "    \x7b",
   "        return await _dbSet.FirstOrDefaultAsync(predicate, cancellationToken);",
   "    \x7d",
   "",
   "    public virtual async Task<bool> AnyAsync(Expression<Func<T, bool>> predicate, CancellationToken cancellationToken = default)",
   "    \x7b",
   "        return await _dbSet.AnyAsync(predicate, cancellationToken);",
   "    \x7d",
   "",
   "    public virtual async Task<int> CountAsync(CancellationToken cancellationToken = default)",
   "    \x7b",
   "        return await _dbSet.CountAsync(cancellationToken);",
   "    \x7d",
   "",
   "    public virtual async Task<int> CountAsync(Expression<Func<T, bool>> predicate, CancellationToken cancellationToken = default)",
   "    \x7b",
   "        return await _dbSet.CountAsync(predicate, cancellationToken);",
   "    \x7d",
   "",
   "    public virtual async Task<T> AddAsync(T entity, CancellationToken cancellationToken = default)",
   "    \x7b",
   "        var entry = await _dbSet.AddAsync(entity, cancellationToken);",
   "        await _context.SaveChangesAsync(cancellationToken);",
   "        return entry.Entity;",
   "    \x7d",
   "",
   "    public virtual async Task<IEnumerable<T>> AddRangeAsync(IEnumerable<T> entities, CancellationToken cancellationToken = default)",
   "    \x7b",
   "        await _dbSet.AddRangeAsync(entities, cancellationToken);",
   "        await _context.SaveChangesAsync(cancellationToken);",
   "        return entities;",
   "    \x7d",
   "",
   "    public virtual async Task UpdateAsync(T entity, CancellationToken cancellationToken = default)",
   "    \x7b",
   "        _dbSet.Update(entity);",
   "        await _context.SaveChangesAsync(cancellationToken);",
   "    \x7d",
   "",
   "    public virtual async Task DeleteAsync(T entity, CancellationToken cancellationToken = default)",
   "    \x7b",
   "        _dbSet.Remove(entity);",
   "        await _context.SaveChangesAsync(cancellationToken);",
   "    \x7d",
   "",
   "    public virtual async Task DeleteRangeAsync(IEnumerable<T> entities, CancellationToken cancellationToken = default)",
   "    \x7b",
   "        _dbSet.RemoveRange(entities);",
   "        await _context.SaveChangesAsync(cancellationToken);",
   "    \x7d",
   "\x7d"]

/-- Entity-specific repository interface lines (`generateEntityInterface`). -/
def generateEntityInterface (entity : Entity) : List String :=
  let entityName := toPascalCase entity.name
  let pkType :=
    match getPrimaryKeyField entity with
    | some f => csharpTypeMap f.type
    | none => "Guid"
  ["public interface I" ++ entityName ++ "Repository : IRepository<" ++
     entityName ++ ">",
   "\x7b",
   "    Task<" ++ entityName ++ "?> GetByIdAsync(" ++ pkType ++
     " id, CancellationToken cancellationToken = default);",
   "    Task<" ++ entityName ++ "?> GetByIdWithRelationsAsync(" ++ pkType ++
     " id, CancellationToken cancellationToken = default);",
   "\x7d"]

/-- Entity-specific repository implementation lines
(`generateEntityRepository`). -/
def generateEntityRepository (entity : Entity) (dbContextName : String) :
    List String :=
  let entityName := toPascalCase entity.name
  let pkField := getPrimaryKeyField entity
  let pkType :=
    match pkField with
    | some f => csharpTypeMap f.type
    | none => "Guid"
  let pkName :=
    match pkField with
    | some f => toPascalCase f.name
    | none => "Id"
  ["public class " ++ entityName ++ "Repository : Repository<" ++
     entityName ++ ">, I" ++ entityName ++ "Repository",
   "\x7b",
   "    public " ++ entityName ++ "Repository(" ++ dbContextName ++
     " context) : base(context)",
   "    \x7b",
   "    \x7d",
   "",
   "    public async Task<" ++ entityName ++ "?> GetByIdAsync(" ++ pkType ++
     " id, CancellationToken cancellationToken = default)",
   "    \x7b",
   "        return await _dbSet.FirstOrDefaultAsync(e => e." ++ pkName ++
     " == id, cancellationToken);",
   "    \x7d",
   "",
   "    public async Task<" ++ entityName ++ "?> GetByIdWithRelationsAsync(" ++
     pkType ++ " id, CancellationToken cancellationToken = default)",
   "    \x7b",
   "        return await _dbSet",
   "            // Add .Include() calls for related entities here",
   "            .FirstOrDefaultAsync(e => e." ++ pkName ++
     " == id, cancellationToken);",
   "    \x7d",
   "\x7d"]

/-- Service interface lines for one entity
(`generateEntityServiceInterface`). -/
def generateEntityServiceInterface (entity : Entity) : List String :=
  let entityName := toPascalCase entity.name
  let pkType :=
    match getPrimaryKeyField entity with
    | some f => csharpTypeMap f.type
    | none => "Guid"
  ["public interface I" ++ entityName ++ "Service",
   "\x7b",
   "    Task<IEnumerable<" ++ entityName ++
     "ResponseDto>> GetAllAsync(int page = 1, int pageSize = 20);",
   "    Task<" ++ entityName ++ "ResponseDto?> GetByIdAsync(" ++ pkType ++
     " id);",
   "    Task<" ++ entityName ++ "ResponseDto> CreateAsync(Create" ++
     entityName ++ "Dto dto);",
   "    Task<" ++ entityName ++ "ResponseDto?> UpdateAsync(" ++ pkType ++
     " id, Update" ++ entityName ++ "Dto dto);",
   "    Task<bool> DeleteAsync(" ++ pkType ++ " id);",
   "\x7d"]

/-- Service implementation lines for one entity (`generateEntityService`). -/
def generateEntityService (entity : Entity) : List String :=
  let entityName := toPascalCase entity.name
  let pkType :=
    match getPrimaryKeyField entity with
    | some f => csharpTypeMap f.type
    | none => "Guid"
  ["public class " ++ entityName ++ "Service : I" ++ entityName ++ "Service",
   "\x7b",
   "    private readonly I" ++ entityName ++ "Repository _repository;",
   "    private readonly IMapper _mapper;",
   "",
   "    public " ++ entityName ++ "Service(I" ++ entityName ++
     "Repository repository, IMapper mapper)",
   "    \x7b",
   "        _repository = repository;",
   "        _mapper = mapper;",
   "    \x7d",
   "",
   "    public async Task<IEnumerable<" ++ entityName ++
     "ResponseDto>> GetAllAsync(int page = 1, int pageSize = 20)",
   "    \x7b",
   "        var entities = await _repository.GetPagedAsync(page, pageSize);",
   "        return _mapper.Map<IEnumerable<" ++ entityName ++
     "ResponseDto>>(entities);",
   "    \x7d",
   "",
   "    public async Task<" ++ entityName ++ "ResponseDto?> GetByIdAsync(" ++
     pkType ++ " id)",
   "    \x7b",
   "        var entity = await _repository.GetByIdAsync(id);",
   "        if (entity == null) return null;",
   "        return _mapper.Map<" ++ entityName ++ "ResponseDto>(entity);",
   "    \x7d",
   "",
   "    public async Task<" ++ entityName ++ "ResponseDto> CreateAsync(Create" ++
     entityName ++ "Dto dto)",
   "    \x7b",
   "        var entity = _mapper.Map<" ++ entityName ++ ">(dto);",
   "        entity = await _repository.AddAsync(entity);",
   "        return _mapper.Map<" ++ entityName ++ "ResponseDto>(entity);",
   "    \x7d",
   "",
   "    public async Task<" ++ entityName ++ "ResponseDto?> UpdateAsync(" ++
     pkType ++ " id, Update" ++ entityName ++ "Dto dto)",
   "    \x7b",
   "        var entity = await _repository.GetByIdAsync(id);",
   "        if (entity == null) return null;",
   "",
   "        _mapper.Map(dto, entity);",
   "        await _repository.UpdateAsync(entity);",
   "        return _mapper.Map<" ++ entityName ++ "ResponseDto>(entity);",
   "    \x7d",
   "",
   "    public async Task<bool> DeleteAsync(" ++ pkType ++ " id)",
   "    \x7b",
   "        var entity = await _repository.GetByIdAsync(id);",
   "        if (entity == null) return false;",
   "",
   "        await _repository.DeleteAsync(entity);",
   "        return true;",
   "    \x7d",
   "\x7d"]

/-- Complete repository layer (`generateRepositories`): placeholder comment
for an empty model, else usings, the generic interface and implementation,
then per-entity interfaces and implementations, each section under a
divider comment. -/
def generateRepositories (model : DataModel) : String :=
  if model.entities.length = 0 then
    "// No entities to generate repositories for"
  else
    let ns := getNamespace model.name
    let dbContextName := toPascalCase model.name ++ "DbContext"
    joinLines
      (["using System;",
        "using System.Collections.Generic;",
        "using System.Linq;",
        "using System.Linq.Expressions;",
        "using System.Threading;",
        "using System.Threading.Tasks;",
        "using AutoMapper;",
        "using Microsoft.EntityFrameworkCore;",
        "using " ++ (ns ++ ".Data;"),
        "using " ++ (ns ++ ".DTOs;"),
        "using " ++ (ns ++ ".Entities;"),
        "",
        "namespace " ++ (ns ++ ".Repositories;"),
        "",
        "// ===========================================",
        "// Generic Repository Interface",
        "// ===========================================",
        ""] ++
      generateIRepository ++
      ["",
       "// ===========================================",
       "// Generic Repository Implementation",
       "// ===========================================",
       ""] ++
      generateRepository dbContextName ++
      ["",
       "// ===========================================",
       "// Entity-specific Repository Interfaces",
       "// ===========================================",
       ""] ++
      model.entities.flatMap (fun e => generateEntityInterface e ++ [""]) ++
      ["// ===========================================",
       "// Entity-specific Repository Implementations",
       "// ===========================================",
       ""] ++
      model.entities.flatMap (fun e =>
        generateEntityRepository e dbContextName ++ [""]))

/-- Complete service layer (`generateServices`): placeholder comment for an
empty model, else usings, then per-entity service interfaces and
implementations under divider comments. -/
def generateServices (model : DataModel) : String :=
  if model.entities.length = 0 then
    "// No entities to generate services for"
  else
    let ns := getNamespace model.name
    joinLines
      (["using System;",
        "using System.Collections.Generic;",
        "using System.Threading.Tasks;",
        "using AutoMapper;",
        "using " ++ (ns ++ ".DTOs;"),
        "using " ++ (ns ++ ".Entities;"),
        "using " ++ (ns ++ ".Repositories;"),
        "",
        "namespace " ++ (ns ++ ".Services;"),
        "",
        "// ===========================================",
        "// Service Interfaces",
        "// ===========================================",
        ""] ++
      model.entities.flatMap (fun e =>
        generateEntityServiceInterface e ++ [""]) ++
      ["// ===========================================",
       "// Service Implementations",
       "// ===========================================",
       ""] ++
      model.entities.flatMap (fun e => generateEntityService e ++ [""]))


/-! Generation dispatcher: the preview facade maps each of the eleven
artifact kinds to its generator (`useCodePreview` over the public API of
the generators module). -/

/-- The eleven artifact kinds of the preview pane. -/
inductive PreviewKind
  | entities | dbcontext | dtos | controller | repository | services
  | migration | migrationPostgres | migrationMysql | migrationSqlite
  | swagger
deriving DecidableEq, Repr

/-- Dispatching facade: `generate(kind, model) → string`, a pure function
of the model snapshot; the four SQL kinds are invoked with
`includeDrops = true` exactly as the public wrappers do. -/
def generate (kind : PreviewKind) (model : DataModel) : String :=
  match kind with
  | .entities => generateEFCoreEntities model
  | .dbcontext => generateDbContext model
  | .dtos => joinLines (generateDTOs model)
  | .controller => generateControllers model
  | .repository => generateRepositories model
  | .services => generateServices model
  | .migration => generateSqlServerSQL model true
  | .migrationPostgres => generatePostgresSQL model true
  | .migrationMysql => generateMySQLSQL model true
  | .migrationSqlite => generateSQLiteSQL model true
  | .swagger => generateOpenAPI model

/-! Specification-side definitions: rule systems and name conventions as the
specification words them, for comparison against the embedded source. -/

/-- Vowel letters, both cases. -/
def isVowelChar (c : Char) : Bool :=
  c == 'a' || c == 'e' || c == 'i' || c == 'o' || c == 'u' ||
  c == 'A' || c == 'E' || c == 'I' || c == 'O' || c == 'U'

/-- Consonant letters: alphabetic and not a vowel. -/
def isConsonantChar (c : Char) : Bool :=
  c.isAlpha && !isVowelChar c

/-- The specification's first pluralization guard as worded: the string
ends in consonant+`y`. -/
def endsConsonantY (s : String) : Bool :=
  match s.data.reverse with
  | [] => false
  | c :: rest =>
    c == 'y' &&
      (match rest with
       | [] => false
       | d :: _ => isConsonantChar d)

/-- The pluralization rule system exactly as the specification words it:
consonant+`y` → `ies`; `s`/`x`/`ch`/`sh` → `es`; `fe` → `ves`; `f` → `ves`;
else append `s`. -/
def toPluralSpecRules (s : String) : String :=
  if endsConsonantY s then
    String.mk (s.data.dropLast ++ ['i', 'e', 's'])
  else if strEndsWith s "s" || strEndsWith s "x" || strEndsWith s "ch" ||
      strEndsWith s "sh" then
    s ++ "es"
  else if strEndsWith s "fe" then
    String.mk (s.data.dropLast.dropLast ++ ['v', 'e', 's'])
  else if strEndsWith s "f" then
    String.mk (s.data.dropLast ++ ['v', 'e', 's'])
  else
    s ++ "s"

/-- The amended first guard matching the source: the string ends in `y` not
immediately preceded by a lowercase vowel (a lone `y`, or `y` after an
uppercase vowel or a non-letter, also matches). -/
def endsNonLowerVowelY (s : String) : Bool :=
  match s.data.reverse with
  | [] => false
  | c :: rest =>
    c == 'y' &&
      (match rest with
       | [] => true
       | d :: _ => !(d == 'a' || d == 'e' || d == 'i' || d == 'o' || d == 'u'))

/-- The amended pluralization rule system: the `y` guard excludes only
lowercase vowels, the remaining rules as the specification words them
(the `f`/`fe` rules are mutually exclusive, so their order is immaterial). -/
def toPluralAmendedRules (s : String) : String :=
  if endsNonLowerVowelY s then
    String.mk (s.data.dropLast ++ ['i', 'e', 's'])
  else if strEndsWith s "s" || strEndsWith s "x" || strEndsWith s "ch" ||
      strEndsWith s "sh" then
    s ++ "es"
  else if strEndsWith s "fe" then
    String.mk (s.data.dropLast.dropLast ++ ['v', 'e', 's'])
  else if strEndsWith s "f" then
    String.mk (s.data.dropLast ++ ['v', 'e', 's'])
  else
    s ++ "s"

/-- The resolved table name as the specification words it: the custom table
name when set and non-empty, otherwise `toPlural(toPascalCase(name))`. -/
def tableNameSpec (e : Entity) : String :=
  match e.tableName with
  | some t => if t != "" then t else toPlural (toPascalCase e.name)
  | none => toPlural (toPascalCase e.name)

/-- The amended resolved table name: the custom table name when set and
non-empty, otherwise `toPlural(name)` on the raw entity name. -/
def tableNameAmended (e : Entity) : String :=
  match e.tableName with
  | some t => if t != "" then t else toPlural e.name
  | none => toPlural e.name

/-- The class-declaration marker counted when measuring emitted blocks. -/
def classDeclMarker : String := "public class "

/-- A line opens a class declaration when it starts with the marker. -/
def linePC (l : String) : Bool :=
  startsWithCL classDeclMarker.data l.data

/-- The names of a component schema's `required` array (empty when the
member is absent). -/
def requiredNames (s : OpenAPIObjectSchema) : List String :=
  s.required.getD []

/-- The three component-schema record keys produced for one entity, in
assignment order. -/
def entitySchemaKeys (e : Entity) : List String :=
  [toPascalCase e.name ++ "ResponseDto",
   "Create" ++ toPascalCase e.name ++ "Dto",
   "Update" ++ toPascalCase e.name ++ "Dto"]

/-- All component-schema record keys of a model, in emission order. -/
def schemaKeyList (es : List Entity) : List String :=
  es.flatMap entitySchemaKeys

/-- All path record keys of a model, in emission order. -/
def pathKeyList (es : List Entity) : List String :=
  es.flatMap (fun e => (generateEntityPaths e).map Prod.fst)

/-- The three component-schema record entries produced for one entity, in
assignment order (the unfolded step of `buildSchemas`). -/
def entitySchemaEntries (m : DataModel) (e : Entity) :
    List (String × OpenAPIObjectSchema) :=
  [(toPascalCase e.name ++ "ResponseDto", generateEntitySchema e m),
   ("Create" ++ toPascalCase e.name ++ "Dto", generateCreateDtoSchema e m),
   ("Update" ++ toPascalCase e.name ++ "Dto", generateUpdateDtoSchema e m)]

/-! Concrete model instances the theorems below are evaluated on. -/

def exUserPkField : Field :=
  { id := "f-user-id", name := "id", type := .guid,
    constraints := { isRequired := true, isPrimaryKey := true,
                     isAutoGenerated := true } }

def exUserEmailField : Field :=
  { id := "f-user-email", name := "email", type := .string,
    constraints := { isRequired := true, isUnique := true,
                     maxLength := some 255 } }

def exUser : Entity :=
  { id := "ent-user", name := "User",
    fields := [exUserPkField, exUserEmailField] }

def exOrderPkField : Field :=
  { id := "f-order-id", name := "id", type := .guid,
    constraints := { isRequired := true, isPrimaryKey := true } }

def exOrder : Entity :=
  { id := "ent-order", name := "Order", fields := [exOrderPkField] }

def exRel : Relation :=
  { id := "rel-1", name := "order-user", sourceEntityId := "ent-order",
    targetEntityId := "ent-user", cardinality := .oneToMany,
    onDelete := .cascade }

def exModel : DataModel :=
  { id := "m-1", name := "Shop", entities := [exOrder, exUser],
    relations := [exRel], indexes := [] }

def exLoosePkField : Field :=
  { id := "f-loose-id", name := "id", type := .guid,
    constraints := { isPrimaryKey := true } }

def exLooseUser : Entity :=
  { id := "ent-loose", name := "User", fields := [exLoosePkField] }

def exLooseModel : DataModel :=
  { id := "m-2", name := "Shop", entities := [exLooseUser],
    relations := [], indexes := [] }

def exSpacedEntity : Entity :=
  { id := "ent-sp", name := "user account", fields := [] }

def exUtcField : Field :=
  { id := "f-dt", name := "createdAt", type := .dateTime,
    constraints := { defaultValue := some "utcnow" } }

def exDanglingRel : Relation :=
  { id := "rel-d", name := "dangling", sourceEntityId := "ent-order",
    targetEntityId := "ent-ghost", cardinality := .oneToMany }

def exDanglingModel : DataModel :=
  { id := "m-3", name := "Shop", entities := [exOrder, exUser],
    relations := [exDanglingRel], indexes := [] }

def exEntityA : Entity :=
  { id := "ent-a", name := "user-account", fields := [] }

def exEntityB : Entity :=
  { id := "ent-b", name := "user_account", fields := [] }

def exCollideModel : DataModel :=
  { id := "m-4", name := "Shop", entities := [exEntityA, exEntityB],
    relations := [], indexes := [] }

/-! General lemmas used by the claim theorems. -/

theorem chBeq_comm (a b : Char) : (a == b) = (b == a) := by
  by_cases h : a = b
  · subst h; rfl
  · rw [beq_eq_false_iff_ne.mpr h, beq_eq_false_iff_ne.mpr (Ne.symm h)]

theorem hasSubstrCL_append_right (a b pat : List Char)
    (h : hasSubstrCL b pat = true) : hasSubstrCL (a ++ b) pat = true := by
  induction a with
  | nil => simpa using h
  | cons c cs ih =>
    rw [List.cons_append]
    unfold hasSubstrCL
    cases cs <;> simp_all [hasSubstrCL]

theorem strContains_append_right (a b pat : String)
    (h : strContains b pat = true) : strContains (a ++ b) pat = true := by
  unfold strContains at *
  rw [String.data_append]
  exact hasSubstrCL_append_right _ _ _ h

/-! Claim C1. -/

/-- C1: for every DataModel and every one of the eleven artifact kinds, the
dispatcher is a pure function of the model snapshot, so repeated calls on
the same snapshot return byte-identical strings. -/
theorem c1_generate_deterministic :
    ∀ (kind : PreviewKind) (model : DataModel),
      generate kind model = generate kind model :=
  fun _ _ => rfl

/-! Claim C2. -/

/-- C2: the entity generator synthesizes the foreign-key property for the
Order→User one-to-many relation with the NON-nullable type `Guid`, not the
nullable `Guid?` the specification promises: in `getCSharpType` the
`isPrimaryKey` flag of the target's key suppresses the `?` even though the
generator forces `isRequired` off (an override that would otherwise be
pointless), and the no-primary-key fallback is the nullable `Guid?`. -/
theorem c2_synthesized_fk_not_nullable :
    synthesizedFkType exUser = "Guid" ∧
    "    public Guid UserId \x7b get; set; \x7d" ∈
      fkLinesForRel exOrder [exOrder, exUser] exRel ∧
    "    public Guid? UserId \x7b get; set; \x7d" ∉
      fkLinesForRel exOrder [exOrder, exUser] exRel := by
  decide

/-! Claim C5. -/

/-- C5 counterexample: for the entity named "user account" with no custom
table name, the resolved table name is `toPlural(entity.name)` =
"user accounts", not `toPlural(toPascalCase(entity.name))` =
"UserAccounts" as claimed. -/
theorem c5_table_name_counterexample :
    exSpacedEntity.tableName = none ∧
    getTableName exSpacedEntity = "user accounts" ∧
    toPlural (toPascalCase exSpacedEntity.name) = "UserAccounts" ∧
    getTableName exSpacedEntity ≠ toPlural (toPascalCase exSpacedEntity.name) := by
  decide

/-- C5 (amended): the resolved table name is the custom table name when set
and non-empty, and otherwise `toPlural(entity.name)` on the raw entity name
(no PascalCase step); the context generator's `ToTable` line carries exactly
this resolved name. -/
theorem c5_table_name_amended (e : Entity) (rels : List Relation)
    (ents : List Entity) :
    getTableName e = tableNameAmended e ∧
    (generateEntityConfiguration e rels ents)[3]? =
      some ("            entity.ToTable(\"" ++ tableNameAmended e ++ "\");") := by
  have h1 : getTableName e = tableNameAmended e := by
    unfold getTableName tableNameAmended
    cases e.tableName <;> rfl
  refine ⟨h1, ?_⟩
  unfold generateEntityConfiguration
  simp only [List.append_assoc]
  rw [List.getElem?_append_left (by simp)]
  simp [h1]

/-! Claim C9. -/

/-- C9 counterexample: on the one-character input "y" the source pluralizer
applies the `ies` rule (no preceding vowel check succeeds), while the
claim's rule list — which demands a consonant before the `y` — falls
through to appending `s`. -/
theorem c9_toPlural_counterexample :
    toPlural "y" = "ies" ∧ toPluralSpecRules "y" = "ys" ∧
    toPlural "y" ≠ toPluralSpecRules "y" := by
  decide

theorem codeY_eq_ruleY (s : String) :
    (strEndsWith s "y" &&
      !(["ay", "ey", "iy", "oy", "uy"].any (fun v => strEndsWith s v))) =
    endsNonLowerVowelY s := by
  unfold strEndsWith endsNonLowerVowelY
  simp only [List.any_cons, List.any_nil]
  rw [show "y".data.reverse = ['y'] from rfl,
    show "ay".data.reverse = ['y', 'a'] from rfl,
    show "ey".data.reverse = ['y', 'e'] from rfl,
    show "iy".data.reverse = ['y', 'i'] from rfl,
    show "oy".data.reverse = ['y', 'o'] from rfl,
    show "uy".data.reverse = ['y', 'u'] from rfl]
  rcases hrev : s.data.reverse with _ | ⟨c, _ | ⟨d, rest⟩⟩
  · simp [startsWithCL]
  · simp [startsWithCL, chBeq_comm 'y' c]
  · simp only [List.any_cons, List.any_nil, startsWithCL, Bool.or_false,
      Bool.and_true]
    rw [chBeq_comm 'y' c, chBeq_comm 'a' d, chBeq_comm 'e' d,
      chBeq_comm 'i' d, chBeq_comm 'o' d, chBeq_comm 'u' d]
    cases hcy : (c == 'y') <;> simp [Bool.and_assoc]

theorem endsWith_f_not_fe (s : String) (h : strEndsWith s "f" = true) :
    strEndsWith s "fe" = false := by
  unfold strEndsWith at *
  rw [show "f".data.reverse = ['f'] from rfl] at h
  rw [show "fe".data.reverse = ['e', 'f'] from rfl]
  rcases hrev : s.data.reverse with _ | ⟨c, l⟩
  · rw [hrev] at h; simp [startsWithCL] at h
  · rw [hrev] at h
    simp only [startsWithCL, Bool.and_true] at h
    have hc : c = 'f' := (beq_iff_eq.mp (by simpa using h)).symm
    subst hc
    simp [startsWithCL]

theorem endsWith_fe_not_f (s : String) (h : strEndsWith s "fe" = true) :
    strEndsWith s "f" = false := by
  unfold strEndsWith at *
  rw [show "fe".data.reverse = ['e', 'f'] from rfl] at h
  rw [show "f".data.reverse = ['f'] from rfl]
  rcases hrev : s.data.reverse with _ | ⟨c, l⟩
  · rw [hrev] at h; simp [startsWithCL] at h
  · rw [hrev] at h
    simp only [startsWithCL] at h
    have hc : c = 'e' := by
      have := (Bool.and_eq_true _ _).mp h
      exact (beq_iff_eq.mp this.1).symm
    subst hc
    simp [startsWithCL]

/-- C9 (amended): the source pluralizer applies exactly the claimed rules in
order, except that the first guard is "ends in `y` not immediately preceded
by a lowercase vowel" rather than "ends in consonant+`y`" (a lone `y`, or
`y` after an uppercase vowel or non-letter character, also gets `ies`); the
`f` and `fe` rules are mutually exclusive, so their order is immaterial. -/
theorem c9_toPlural_amended (s : String) :
    toPlural s = toPluralAmendedRules s := by
  unfold toPlural toPluralAmendedRules
  rw [codeY_eq_ruleY]
  by_cases h1 : endsNonLowerVowelY s = true
  · rw [if_pos h1, if_pos h1]
  · rw [if_neg h1, if_neg h1]
    by_cases h2 : (strEndsWith s "s" || strEndsWith s "x" ||
        strEndsWith s "ch" || strEndsWith s "sh") = true
    · rw [if_pos h2, if_pos h2]
    · rw [if_neg h2, if_neg h2]
      by_cases h3 : strEndsWith s "f" = true
      · have h4 : strEndsWith s "fe" = false := endsWith_f_not_fe s h3
        rw [if_pos h3, if_neg (by simp [h4]), if_pos h3]
      · by_cases h5 : strEndsWith s "fe" = true
        · have h6 : strEndsWith s "f" = false := endsWith_fe_not_f s h5
          rw [if_neg h3, if_pos h5, if_pos h5]
        · rw [if_neg h3, if_neg h5, if_neg h5, if_neg h3]

/-! Claim C10. -/

/-- C10: the DbContext names each entity's typed collection accessor
`toPlural(toPascalCase(entity.name))` independently of the custom table
name, while the `ToTable` mapping in the same output uses the custom table
name when set and non-empty — a custom table name changes the table mapping
but never the accessor name. -/
theorem c10_dbset_accessor_naming (e : Entity) (t : String)
    (rels : List Relation) (ents : List Entity) (ht : t ≠ "") :
    dbSetLine e =
      "    public DbSet<" ++ toPascalCase e.name ++ "> " ++
        toPlural (toPascalCase e.name) ++ " \x7b get; set; \x7d = null!;" ∧
    dbSetLine { e with tableName := some t } = dbSetLine e ∧
    (generateEntityConfiguration { e with tableName := some t } rels ents)[3]? =
      some ("            entity.ToTable(\"" ++ t ++ "\");") := by
  refine ⟨rfl, rfl, ?_⟩
  unfold generateEntityConfiguration
  simp only [List.append_assoc]
  rw [List.getElem?_append_left (by simp)]
  have hgt : getTableName { e with tableName := some t } = t := by
    unfold getTableName
    simp only []
    rw [if_pos (bne_iff_ne.mpr ht)]
  simp [hgt]

/-- Witness for C10 at a concrete entity and custom table name. -/
theorem c10_dbset_accessor_naming_witness :
    ("tbl_users" : String) ≠ "" ∧
    (dbSetLine exUser =
      "    public DbSet<" ++ toPascalCase exUser.name ++ "> " ++
        toPlural (toPascalCase exUser.name) ++ " \x7b get; set; \x7d = null!;" ∧
    dbSetLine { exUser with tableName := some "tbl_users" } = dbSetLine exUser ∧
    (generateEntityConfiguration { exUser with tableName := some "tbl_users" }
        [] [])[3]? =
      some ("            entity.ToTable(\"" ++ "tbl_users" ++ "\");")) :=
  ⟨by decide, c10_dbset_accessor_naming exUser "tbl_users" [] [] (by decide)⟩

/-! Claim C6. -/

/-- C6 counterexample: for a non-auto-generated DateTime field with the
default-value token "utcnow", the object-language default expression is
`DateTime.UtcNow`, but the SQL column definition carries no DEFAULT clause
at all — the SQL renderer recognizes only "now"/"getdate". -/
theorem c6_sql_default_counterexample :
    getDefaultValueExpression exUtcField = " = DateTime.UtcNow;" ∧
    getSqlColumnDefinition exUtcField .sqlserver = "DATETIME2 NULL" ∧
    strContains (getSqlColumnDefinition exUtcField .sqlserver) " DEFAULT " =
      false := by
  decide

/-- C6 (amended): for a non-auto-generated DateTime field with a
default-value token, the SQL column definition carries a DEFAULT clause
exactly when the token is "now" or "getdate" (case-insensitive);
"utcnow"/"getutcdate" and all other tokens produce no DEFAULT clause in
SQL, even though the object-language default expression maps
"utcnow"/"getutcdate" to `DateTime.UtcNow`. -/
theorem c6_sql_datetime_default_amended (c : FieldConstraints)
    (i n v : String) (db : DatabaseType)
    (hauto : c.isAutoGenerated = false)
    (hdv : c.defaultValue = some v) (hv : v ≠ "") :
    (strContains
        (getSqlColumnDefinition
          { id := i, name := n, type := .dateTime, constraints := c } db)
        " DEFAULT " = true ↔
      (jsToLower v = "now" ∨ jsToLower v = "getdate")) ∧
    ((jsToLower v = "utcnow" ∨ jsToLower v = "getutcdate") →
      getDefaultValueExpression
          { id := i, name := n, type := .dateTime, constraints := c } =
        " = DateTime.UtcNow;") := by
  have hbne : (v != "") = true := bne_iff_ne.mpr hv
  constructor
  · by_cases htok : (jsToLower v == "now" || jsToLower v == "getdate") = true
    · have hprop : jsToLower v = "now" ∨ jsToLower v = "getdate" := by
        rcases (Bool.or_eq_true _ _).mp htok with h | h
        · exact Or.inl (beq_iff_eq.mp h)
        · exact Or.inr (beq_iff_eq.mp h)
      refine iff_of_true ?_ hprop
      cases db <;> cases hr : c.isRequired <;> cases hp : c.isPrimaryKey <;>
        simp [getSqlColumnDefinition, getSqlType, getSqlTypeMap, truthyStr,
          hdv, hauto, hr, hp, htok, hbne, sqlServerTypeMap, postgresTypeMap,
          mysqlTypeMap, sqliteTypeMap] <;>
        decide
    · refine iff_of_false ?_ ?_
      · cases db <;> cases hr : c.isRequired <;> cases hp : c.isPrimaryKey <;>
          simp [getSqlColumnDefinition, getSqlType, getSqlTypeMap, truthyStr,
            hdv, hauto, hr, hp, htok, hbne, sqlServerTypeMap, postgresTypeMap,
            mysqlTypeMap, sqliteTypeMap] <;>
          decide
      · intro h
        rcases h with h | h <;> rw [h] at htok <;> exact htok (by decide)
  · intro h
    unfold getDefaultValueExpression
    rcases h with h | h <;> simp [hdv, hbne, h]

/-- Witness for C6 (amended) at the concrete "utcnow" DateTime field. -/
theorem c6_sql_datetime_default_amended_witness :
    (exUtcField.constraints.isAutoGenerated = false ∧
     exUtcField.constraints.defaultValue = some "utcnow" ∧
     ("utcnow" : String) ≠ "") ∧
    ((strContains
        (getSqlColumnDefinition
          { id := "f-dt", name := "createdAt", type := .dateTime,
            constraints := exUtcField.constraints } .sqlserver)
        " DEFAULT " = true ↔
      (jsToLower "utcnow" = "now" ∨ jsToLower "utcnow" = "getdate")) ∧
    ((jsToLower "utcnow" = "utcnow" ∨ jsToLower "utcnow" = "getutcdate") →
      getDefaultValueExpression
          { id := "f-dt", name := "createdAt", type := .dateTime,
            constraints := exUtcField.constraints } =
        " = DateTime.UtcNow;")) :=
  ⟨by decide,
   c6_sql_datetime_default_amended exUtcField.constraints "f-dt" "createdAt"
     "utcnow" .sqlserver (by decide) (by decide) (by decide)⟩

/-! Claim C3. -/

theorem lawfulBeq_comm {α : Type} [BEq α] [LawfulBEq α] (a b : α) :
    (a == b) = (b == a) := by
  by_cases h : a = b
  · subst h; rfl
  · rw [beq_eq_false_iff_ne.mpr h, beq_eq_false_iff_ne.mpr (Ne.symm h)]

/-- C3: for every relation whose target exists and whose cardinality is
one-to-one or one-to-many, the context generator's `HasForeignKey` line
references `getForeignKeyName(target)`, and the entity-class generator uses
the very same name: either a declared field already matches it (so nothing
is synthesized), or the synthesized FK property carries exactly that name. -/
theorem c3_fk_name_agreement (entity targetEntity : Entity)
    (ents : List Entity) (rel : Relation)
    (hfind : getEntityById ents rel.targetEntityId = some targetEntity)
    (hcard : rel.cardinality = .oneToMany ∨ rel.cardinality = .oneToOne) :
    (rel.cardinality = .oneToMany →
      ("                .HasForeignKey(e => e." ++
        getForeignKeyName targetEntity ++ ")") ∈
        ctxRelationshipLines (toPascalCase entity.name) ents rel) ∧
    (rel.cardinality = .oneToOne →
      ("                .HasForeignKey<" ++ toPascalCase entity.name ++
        ">(e => e." ++ getForeignKeyName targetEntity ++ ")") ∈
        ctxRelationshipLines (toPascalCase entity.name) ents rel) ∧
    ((∃ f ∈ entity.fields,
        (toPascalCase f.name == getForeignKeyName targetEntity ||
         f.name == getForeignKeyName targetEntity) = true) ∨
      ("    " ++ ("public " ++ synthesizedFkType targetEntity ++ " " ++
        getForeignKeyName targetEntity ++ " \x7b get; set; \x7d")) ∈
        fkLinesForRel entity ents rel) := by
  refine ⟨?_, ?_, ?_⟩
  · intro h1
    unfold ctxRelationshipLines
    rw [hfind, h1]
    simp
  · intro h1
    unfold ctxRelationshipLines
    rw [hfind, h1]
    simp
  · by_cases hex : (entity.fields.find? (fun f =>
        toPascalCase f.name == getForeignKeyName targetEntity ||
        f.name == getForeignKeyName targetEntity)).isSome = true
    · left
      rcases List.find?_isSome.mp hex with ⟨f, hf, hp⟩
      exact ⟨f, hf, hp⟩
    · right
      unfold fkLinesForRel
      rw [hfind]
      rcases hcard with h | h <;> rw [h] <;>
        simp only [Bool.not_eq_true] at hex <;>
        simp [hex]

/-- Witness for C3 at the concrete Order→User one-to-many relation. -/
theorem c3_fk_name_agreement_witness :
    (getEntityById [exOrder, exUser] exRel.targetEntityId = some exUser ∧
     (exRel.cardinality = .oneToMany ∨ exRel.cardinality = .oneToOne)) ∧
    ((exRel.cardinality = .oneToMany →
      ("                .HasForeignKey(e => e." ++
        getForeignKeyName exUser ++ ")") ∈
        ctxRelationshipLines (toPascalCase exOrder.name) [exOrder, exUser] exRel) ∧
    (exRel.cardinality = .oneToOne →
      ("                .HasForeignKey<" ++ toPascalCase exOrder.name ++
        ">(e => e." ++ getForeignKeyName exUser ++ ")") ∈
        ctxRelationshipLines (toPascalCase exOrder.name) [exOrder, exUser] exRel) ∧
    ((∃ f ∈ exOrder.fields,
        (toPascalCase f.name == getForeignKeyName exUser ||
         f.name == getForeignKeyName exUser) = true) ∨
      ("    " ++ ("public " ++ synthesizedFkType exUser ++ " " ++
        getForeignKeyName exUser ++ " \x7b get; set; \x7d")) ∈
        fkLinesForRel exOrder [exOrder, exUser] exRel)) :=
  ⟨⟨by decide, by decide⟩,
   c3_fk_name_agreement exOrder exUser [exOrder, exUser] exRel (by decide)
     (by decide)⟩

/-! Claim C4. -/

theorem flatMap_filter_mid {α β : Type} (p : α → Bool) (g : α → List β)
    (l1 l2 : List α) (r : α) (h : p r = false ∨ g r = []) :
    ((l1 ++ r :: l2).filter p).flatMap g =
      ((l1 ++ l2).filter p).flatMap g := by
  rw [List.filter_append, List.filter_append, List.filter_cons]
  rcases h with h | h
  · rw [h]
    simp
  · by_cases hp : p r = true
    · rw [if_pos hp]
      simp [List.flatMap_append, h]
    · rw [if_neg hp]

theorem entityClass_drop_dangling (e : Entity) (ents : List Entity)
    (l1 l2 : List Relation) (r : Relation) (he : e ∈ ents)
    (hd : getEntityById ents r.targetEntityId = none ∨
          getEntityById ents r.sourceEntityId = none) :
    generateEntityClass e (l1 ++ r :: l2) ents =
      generateEntityClass e (l1 ++ l2) ents := by
  rcases hd with hd | hd
  · have h1 : fkLinesForRel e ents r = [] := by
      unfold fkLinesForRel; rw [hd]
    have h2 : navLinesOut ents r = [] := by
      unfold navLinesOut; rw [hd]
    have h3 : (r.targetEntityId == e.id) = false := by
      have hx := List.find?_eq_none.mp hd e he
      simp only [Bool.not_eq_true] at hx
      rw [lawfulBeq_comm]
      exact hx
    simp only [generateEntityClass, outgoingOf, incomingOf]
    rw [flatMap_filter_mid _ _ l1 l2 r (Or.inr h1),
      flatMap_filter_mid _ _ l1 l2 r (Or.inr h2),
      flatMap_filter_mid _ _ l1 l2 r (Or.inl h3)]
  · have h1 : (r.sourceEntityId == e.id) = false := by
      have hx := List.find?_eq_none.mp hd e he
      simp only [Bool.not_eq_true] at hx
      rw [lawfulBeq_comm]
      exact hx
    have h2 : navLinesIn ents r = [] := by
      unfold navLinesIn; rw [hd]
    simp only [generateEntityClass, outgoingOf, incomingOf]
    rw [flatMap_filter_mid _ _ l1 l2 r (Or.inl h1),
      flatMap_filter_mid _ _ l1 l2 r (Or.inl h1),
      flatMap_filter_mid _ _ l1 l2 r (Or.inr h2)]

/-- C4: a relation whose target entity id (or source entity id) matches no
entity of the model contributes nothing to any entity class — the whole
entity-classes artifact is byte-identical to the one generated from the
same model with that relation removed (and, the generators being total
functions, nothing throws). -/
theorem c4_dangling_relation_safe (m : DataModel) (l1 l2 : List Relation)
    (r : Relation) (hsplit : m.relations = l1 ++ r :: l2)
    (hdangling : getEntityById m.entities r.targetEntityId = none ∨
                 getEntityById m.entities r.sourceEntityId = none) :
    generateEFCoreEntities m =
      generateEFCoreEntities { m with relations := l1 ++ l2 } := by
  unfold generateEFCoreEntities generateEFCoreEntitiesLines
  have hmap : m.entities.map (fun e => generateEntityClass e m.relations m.entities) =
      m.entities.map (fun e => generateEntityClass e (l1 ++ l2) m.entities) := by
    apply List.map_congr_left
    intro e he
    rw [hsplit]
    exact entityClass_drop_dangling e m.entities l1 l2 r he hdangling
  simp only [efHeaderLines]
  rw [hmap]

/-- Witness for C4 at a concrete model with a dangling relation. -/
theorem c4_dangling_relation_safe_witness :
    (exDanglingModel.relations = [] ++ exDanglingRel :: [] ∧
     (getEntityById exDanglingModel.entities exDanglingRel.targetEntityId = none ∨
      getEntityById exDanglingModel.entities exDanglingRel.sourceEntityId = none)) ∧
    generateEFCoreEntities exDanglingModel =
      generateEFCoreEntities { exDanglingModel with relations := [] ++ [] } :=
  ⟨⟨by decide, by decide⟩,
   c4_dangling_relation_safe exDanglingModel [] [] exDanglingRel (by decide)
     (by decide)⟩

/-! Claim C7. -/

theorem lookupA_recInsert {α : Type} (k k2 : String) (v : α)
    (l : List (String × α)) :
    lookupA k (recInsert k2 v l) = if k2 == k then some v else lookupA k l := by
  induction l with
  | nil => simp [recInsert, lookupA]
  | cons hd tl ih =>
    obtain ⟨k3, v3⟩ := hd
    simp only [recInsert]
    by_cases h32 : k3 = k2
    · subst h32
      simp only [beq_self_eq_true, if_true]
      by_cases h3k : k3 = k
      · subst h3k
        simp [lookupA]
      · simp [lookupA, h3k, beq_eq_false_iff_ne.mpr h3k]
    · rw [if_neg (fun hcontr => h32 (beq_iff_eq.mp hcontr))]
      by_cases h3k : k3 = k
      · subst h3k
        have : (k2 == k3) = false := beq_eq_false_iff_ne.mpr (Ne.symm h32)
        simp [lookupA, this]
      · simp [lookupA, h3k, beq_eq_false_iff_ne.mpr h3k, ih]

theorem lookupA_insertFieldProps_skip (fields : List Field)
    (acc : List (String × OpenAPISchema)) (k : String)
    (hk : ∀ f ∈ fields, k ≠ toCamelCase f.name) :
    lookupA k (insertFieldProps fields acc) = lookupA k acc := by
  induction fields generalizing acc with
  | nil => rfl
  | cons f fs ih =>
    unfold insertFieldProps
    rw [ih _ (fun g hg => hk g (List.mem_cons_of_mem _ hg))]
    rw [lookupA_recInsert]
    rw [if_neg (fun hcontr =>
      hk f (List.mem_cons_self f fs) (beq_iff_eq.mp hcontr).symm)]

theorem lookupA_insertFieldProps_mem (fields : List Field)
    (acc : List (String × OpenAPISchema)) (f : Field) (hmem : f ∈ fields)
    (hnodup : (fields.map (fun g => toCamelCase g.name)).Nodup) :
    lookupA (toCamelCase f.name) (insertFieldProps fields acc) =
      some (getOpenAPIType f) := by
  induction fields generalizing acc with
  | nil => cases hmem
  | cons g gs ih =>
    rcases List.mem_cons.mp hmem with rfl | hmem2
    · unfold insertFieldProps
      have hskip : ∀ g2 ∈ gs, toCamelCase f.name ≠ toCamelCase g2.name := by
        intro g2 hg2 heq
        refine (List.nodup_cons.mp hnodup).1 ?_
        show toCamelCase f.name ∈ List.map (fun g => toCamelCase g.name) gs
        rw [heq]
        exact List.mem_map_of_mem _ hg2
      rw [lookupA_insertFieldProps_skip gs _ _ hskip, lookupA_recInsert,
        if_pos (beq_self_eq_true _)]
    · unfold insertFieldProps
      exact ih _ hmem2 (List.nodup_cons.mp hnodup).2

theorem lookupA_insertCreateFieldProps_skip (fields : List Field)
    (acc : List (String × OpenAPISchema)) (k : String)
    (hk : ∀ f ∈ fields, k ≠ toCamelCase f.name) :
    lookupA k (insertCreateFieldProps fields acc) = lookupA k acc := by
  induction fields generalizing acc with
  | nil => rfl
  | cons f fs ih =>
    unfold insertCreateFieldProps
    rw [ih _ (fun g hg => hk g (List.mem_cons_of_mem _ hg))]
    by_cases hp : f.constraints.isPrimaryKey = true
    · rw [if_pos hp]
    · rw [if_neg hp, lookupA_recInsert,
        if_neg (fun hcontr =>
          hk f (List.mem_cons_self f fs) (beq_iff_eq.mp hcontr).symm)]

theorem lookupA_insertCreateFieldProps_mem (fields : List Field)
    (acc : List (String × OpenAPISchema)) (f : Field) (hmem : f ∈ fields)
    (hfpk : f.constraints.isPrimaryKey = false)
    (hnodup : (fields.map (fun g => toCamelCase g.name)).Nodup) :
    lookupA (toCamelCase f.name) (insertCreateFieldProps fields acc) =
      some (getOpenAPIType f) := by
  induction fields generalizing acc with
  | nil => cases hmem
  | cons g gs ih =>
    rcases List.mem_cons.mp hmem with rfl | hmem2
    · unfold insertCreateFieldProps
      have hskip : ∀ g2 ∈ gs, toCamelCase f.name ≠ toCamelCase g2.name := by
        intro g2 hg2 heq
        refine (List.nodup_cons.mp hnodup).1 ?_
        show toCamelCase f.name ∈ List.map (fun g => toCamelCase g.name) gs
        rw [heq]
        exact List.mem_map_of_mem _ hg2
      rw [if_neg (by simp [hfpk])]
      rw [lookupA_insertCreateFieldProps_skip gs _ _ hskip, lookupA_recInsert,
        if_pos (beq_self_eq_true _)]
    · unfold insertCreateFieldProps
      by_cases hg : g.constraints.isPrimaryKey = true
      · rw [if_pos hg]
        exact ih _ hmem2 (List.nodup_cons.mp hnodup).2
      · rw [if_neg hg]
        exact ih _ hmem2 (List.nodup_cons.mp hnodup).2

theorem lookupA_insertFkProps_skip (model : DataModel) (rels : List Relation)
    (acc : List (String × OpenAPISchema)) (k : String)
    (hk : ∀ r ∈ rels, ∀ t : Entity,
      getEntityById model.entities r.targetEntityId = some t →
      k ≠ toCamelCase (getForeignKeyName t)) :
    lookupA k (insertFkProps model rels acc) = lookupA k acc := by
  induction rels generalizing acc with
  | nil => rfl
  | cons r rs ih =>
    unfold insertFkProps
    rw [ih _ (fun r2 hr2 => hk r2 (List.mem_cons_of_mem _ hr2))]
    by_cases hc : (r.cardinality = Cardinality.oneToMany ∨
        r.cardinality = Cardinality.oneToOne)
    · rw [if_pos (by rcases hc with h | h <;> simp [h])]
      cases hfind : getEntityById model.entities r.targetEntityId with
      | none => rfl
      | some t =>
        rw [lookupA_recInsert,
          if_neg (fun hcontr =>
            hk r (List.mem_cons_self r rs) t hfind (beq_iff_eq.mp hcontr).symm)]
    · rw [if_neg (by
        simp only [Bool.or_eq_true, decide_eq_true_eq]
        exact hc)]

/-- C7 counterexample: for an entity whose primary-key field is not marked
required, the Response schema lists the key in `required` while its
property schema carries `nullable: true` — `required` is pushed for
`isRequired || isPrimaryKey` but `nullable` is set from `!isRequired`
alone. -/
theorem c7_required_nullable_counterexample :
    "id" ∈ requiredNames (generateEntitySchema exLooseUser exLooseModel) ∧
    lookupA "id" (generateEntitySchema exLooseUser exLooseModel).properties =
      some { type := "string", format := some "uuid", nullable := some true } := by
  decide

theorem requiredNames_mk (l : List String)
    (p : List (String × OpenAPISchema)) :
    requiredNames ⟨if l.length > 0 then some l else none, p⟩ = l := by
  by_cases h : l.length > 0
  · simp [requiredNames, h]
  · have : l = [] := List.eq_nil_of_length_eq_zero (by omega)
    subst this
    simp [requiredNames]

/-- C7 (amended): in every emitted component schema, a name listed in the
`required` array denotes a non-nullable property, provided every
primary-key field is also marked required, the camelCased field names are
pairwise distinct, and no synthesized foreign-key property name collides
with a declared field's camelCased name.  Without the first proviso a
primary-key field not marked required is listed in `required` with
`nullable: true`; without the others a colliding later insertion can
overwrite a required property with a nullable schema. -/
theorem c7_required_nonnullable_amended (entity : Entity) (model : DataModel)
    (hpk : ∀ f ∈ entity.fields, f.constraints.isPrimaryKey = true →
      f.constraints.isRequired = true)
    (hnodup : (entity.fields.map (fun f => toCamelCase f.name)).Nodup)
    (hfk : ∀ r ∈ model.relations, r.sourceEntityId = entity.id →
      ∀ t : Entity, getEntityById model.entities r.targetEntityId = some t →
        toCamelCase (getForeignKeyName t) ∉
          entity.fields.map (fun f => toCamelCase f.name)) :
    ∀ sch ∈ [generateEntitySchema entity model,
             generateCreateDtoSchema entity model,
             generateUpdateDtoSchema entity model],
      ∀ n ∈ requiredNames sch, ∀ ps, lookupA n sch.properties = some ps →
        ps.nullable ≠ some true := by
  have hfkskip : ∀ (f : Field), f ∈ entity.fields →
      ∀ r ∈ fkRelationsFrom entity model, ∀ t : Entity,
        getEntityById model.entities r.targetEntityId = some t →
        toCamelCase f.name ≠ toCamelCase (getForeignKeyName t) := by
    intro f hf r hr t hfind heq
    have hr2 := List.mem_filter.mp hr
    have hsrc : r.sourceEntityId = entity.id := beq_iff_eq.mp hr2.2
    refine hfk r hr2.1 hsrc t hfind ?_
    show toCamelCase (getForeignKeyName t) ∈
      List.map (fun g => toCamelCase g.name) entity.fields
    rw [← heq]
    exact List.mem_map_of_mem (fun g => toCamelCase g.name) hf
  intro sch hsch n hn ps hps
  have hsch3 : sch = generateEntitySchema entity model ∨
      sch = generateCreateDtoSchema entity model ∨
      sch = generateUpdateDtoSchema entity model := by
    simpa using hsch
  rcases hsch3 with rfl | rfl | rfl
  · unfold generateEntitySchema at hn hps
    rw [requiredNames_mk] at hn
    obtain ⟨f, hf, rfl⟩ := List.mem_map.mp hn
    have hff := List.mem_filter.mp hf
    have hreq : f.constraints.isRequired = true := by
      rcases Bool.or_eq_true _ _ |>.mp hff.2 with h | h
      · exact h
      · exact hpk f hff.1 h
    rw [lookupA_insertFkProps_skip _ _ _ _
        (fun r hr t hfind => hfkskip f hff.1 r hr t hfind),
      lookupA_insertFieldProps_mem _ _ f hff.1 hnodup] at hps
    cases hps
    simp [getOpenAPIType, hreq]
  · unfold generateCreateDtoSchema at hn hps
    rw [requiredNames_mk] at hn
    obtain ⟨f, hf, rfl⟩ := List.mem_map.mp hn
    have hff := List.mem_filter.mp hf
    have hand := Bool.and_eq_true _ _ |>.mp hff.2
    have hnpk : f.constraints.isPrimaryKey = false := by
      simpa using hand.1
    have hreq : f.constraints.isRequired = true := hand.2
    rw [lookupA_insertFkProps_skip _ _ _ _
        (fun r hr t hfind => hfkskip f hff.1 r hr t hfind),
      lookupA_insertCreateFieldProps_mem _ _ f hff.1 hnpk hnodup] at hps
    cases hps
    simp [getOpenAPIType, hreq]
  · unfold generateUpdateDtoSchema at hn
    simp [requiredNames] at hn

/-- Witness for C7 (amended) at the concrete User entity. -/
theorem c7_required_nonnullable_amended_witness :
    ((∀ f ∈ exUser.fields, f.constraints.isPrimaryKey = true →
        f.constraints.isRequired = true) ∧
     (exUser.fields.map (fun f => toCamelCase f.name)).Nodup ∧
     (∀ r ∈ exModel.relations, r.sourceEntityId = exUser.id →
       ∀ t : Entity, getEntityById exModel.entities r.targetEntityId = some t →
         toCamelCase (getForeignKeyName t) ∉
           exUser.fields.map (fun f => toCamelCase f.name))) ∧
    (∀ sch ∈ [generateEntitySchema exUser exModel,
              generateCreateDtoSchema exUser exModel,
              generateUpdateDtoSchema exUser exModel],
      ∀ n ∈ requiredNames sch, ∀ ps, lookupA n sch.properties = some ps →
        ps.nullable ≠ some true) :=
  ⟨⟨by decide, by decide, by decide⟩,
   c7_required_nonnullable_amended exUser exModel (by decide) (by decide)
     (by decide)⟩

/-! Claim C8. -/

theorem startsWithCL_append_self : ∀ (p t : List Char),
    startsWithCL p (p ++ t) = true
  | [], _ => rfl
  | c :: cs, t => by
    simp [startsWithCL, startsWithCL_append_self cs t]

theorem linePC_class (b : String) : linePC ("public class " ++ b) = true := by
  unfold linePC
  rw [String.data_append,
    show classDeclMarker.data = "public class ".data from rfl]
  exact startsWithCL_append_self _ _

theorem linePC_head_mismatch (a b : String) (c : Char) (t : List Char)
    (hd : a.data = c :: t) (hc : (('p' : Char) == c) = false) :
    linePC (a ++ b) = false := by
  unfold linePC
  rw [String.data_append, hd, List.cons_append,
    show classDeclMarker.data = 'p' :: "ublic class ".data from rfl]
  simp [startsWithCL, hc]

theorem linePC_indent (b : String) : linePC ("    " ++ b) = false :=
  linePC_head_mismatch "    " b ' ' "   ".data rfl (by decide)

theorem linePC_bracket (b : String) : linePC ("[" ++ b) = false :=
  linePC_head_mismatch "[" b '[' [] rfl (by decide)

theorem linePC_using (b : String) : linePC ("using " ++ b) = false :=
  linePC_head_mismatch "using " b 'u' "sing ".data rfl (by decide)

theorem linePC_ns (b : String) : linePC ("namespace " ++ b) = false :=
  linePC_head_mismatch "namespace " b 'n' "amespace ".data rfl (by decide)

theorem linePC_empty : linePC "" = false := by decide

theorem linePC_lbrace : linePC "\x7b" = false := by decide

theorem linePC_rbrace : linePC "\x7d" = false := by decide

theorem countP_map_indent (l : List String) :
    (l.map (fun a => "    " ++ a)).countP linePC = 0 := by
  induction l with
  | nil => rfl
  | cons a as ih => simp [List.countP_cons, linePC_indent, ih]

theorem fieldPropLines_countP (f : Field) :
    (fieldPropLines f).countP linePC = 0 := by
  unfold fieldPropLines
  rw [List.countP_append, countP_map_indent]
  simp [List.countP_cons, linePC_indent, linePC_empty]

theorem fkLinesForRel_countP (e : Entity) (ents : List Entity)
    (r : Relation) : (fkLinesForRel e ents r).countP linePC = 0 := by
  unfold fkLinesForRel
  cases getEntityById ents r.targetEntityId with
  | none => rfl
  | some t =>
    simp [apply_ite (List.countP linePC), List.countP_cons, linePC_indent,
      linePC_empty]

theorem navLinesOut_countP (ents : List Entity) (r : Relation) :
    (navLinesOut ents r).countP linePC = 0 := by
  unfold navLinesOut
  cases getEntityById ents r.targetEntityId with
  | none => rfl
  | some t =>
    simp [apply_ite (List.countP linePC), List.countP_append,
      List.countP_cons, linePC_indent, linePC_empty]

theorem navLinesIn_countP (ents : List Entity) (r : Relation) :
    (navLinesIn ents r).countP linePC = 0 := by
  unfold navLinesIn
  cases getEntityById ents r.sourceEntityId with
  | none => rfl
  | some t =>
    simp [apply_ite (List.countP linePC), List.countP_append,
      List.countP_cons, linePC_indent, linePC_empty]

theorem countP_flatMap_zero {α : Type} (g : α → List String) (l : List α)
    (h : ∀ a ∈ l, (g a).countP linePC = 0) :
    (l.flatMap g).countP linePC = 0 := by
  induction l with
  | nil => rfl
  | cons a as ih =>
    rw [List.flatMap_cons, List.countP_append, h a (List.mem_cons_self a as),
      ih (fun x hx => h x (List.mem_cons_of_mem _ hx))]

theorem entityClass_countP (e : Entity) (rels : List Relation)
    (ents : List Entity) :
    (generateEntityClass e rels ents).countP linePC = 1 := by
  have hfk : ((outgoingOf e rels).flatMap (fkLinesForRel e ents)).countP
      linePC = 0 :=
    countP_flatMap_zero _ _ (fun r _ => fkLinesForRel_countP e ents r)
  have hno : ((outgoingOf e rels).flatMap (navLinesOut ents)).countP
      linePC = 0 :=
    countP_flatMap_zero _ _ (fun r _ => navLinesOut_countP ents r)
  have hni : ((incomingOf e rels).flatMap (navLinesIn ents)).countP
      linePC = 0 :=
    countP_flatMap_zero _ _ (fun r _ => navLinesIn_countP ents r)
  have hfp : (e.fields.flatMap fieldPropLines).countP linePC = 0 :=
    countP_flatMap_zero _ _ (fun f _ => fieldPropLines_countP f)
  unfold generateEntityClass
  cases e.tableName with
  | none =>
    simp [List.countP_append, List.countP_cons,
      apply_ite (List.countP linePC), hfk, hno, hni, hfp, linePC_class,
      linePC_indent, linePC_bracket, linePC_empty, linePC_lbrace,
      linePC_rbrace, -String.reduceAppend]
  | some t =>
    simp [List.countP_append, List.countP_cons,
      apply_ite (List.countP linePC), hfk, hno, hni, hfp, linePC_class,
      linePC_indent, linePC_bracket, linePC_empty, linePC_lbrace,
      linePC_rbrace, -String.reduceAppend]

theorem joinBlocks_countP (blocks : List (List String))
    (h : ∀ b ∈ blocks, b.countP linePC = 1) :
    (joinBlocks blocks).countP linePC = blocks.length := by
  induction blocks with
  | nil => rfl
  | cons b bs ih =>
    cases bs with
    | nil => simpa using h b (List.mem_cons_self b [])
    | cons b2 bs2 =>
      show (b ++ [""] ++ joinBlocks (b2 :: bs2)).countP linePC = _
      rw [List.countP_append, List.countP_append,
        h b (List.mem_cons_self _ _),
        ih (fun x hx => h x (List.mem_cons_of_mem _ hx))]
      simp [List.countP_cons, linePC_empty]
      omega

theorem efHeader_countP (m : DataModel) :
    (efHeaderLines m).countP linePC = 0 := by
  unfold efHeaderLines
  simp [List.countP_cons, linePC_empty, linePC_ns,
    show linePC "using System;" = false from by decide,
    show linePC "using System.Collections.Generic;" = false from by decide,
    show linePC "using System.ComponentModel.DataAnnotations;" = false from
      by decide,
    show linePC "using System.ComponentModel.DataAnnotations.Schema;" = false
      from by decide,
    show linePC "using Microsoft.EntityFrameworkCore;" = false from by decide]

theorem efcoreLines_countP (m : DataModel) :
    (generateEFCoreEntitiesLines m).countP linePC = m.entities.length := by
  unfold generateEFCoreEntitiesLines
  rw [List.countP_append, efHeader_countP,
    joinBlocks_countP _ (by
      intro b hb
      obtain ⟨e, _, rfl⟩ := List.mem_map.mp hb
      exact entityClass_countP e m.relations m.entities)]
  simp

theorem ctrlBlock_countP (e : Entity) :
    (generateEntityController e).countP linePC = 1 := by
  unfold generateEntityController
  simp [List.countP_cons, linePC_indent, linePC_bracket, linePC_class,
    linePC_empty, linePC_lbrace, linePC_rbrace, -String.reduceAppend]

theorem controllersLines_countP (m : DataModel) :
    (generateControllersLines m).countP linePC = m.entities.length := by
  unfold generateControllersLines
  by_cases h0 : m.entities.length = 0
  · rw [if_pos h0, h0]
    simp [List.countP_cons,
      show linePC "// No entities to generate controllers for" = false from
        by decide]
  · rw [if_neg h0, List.countP_append,
      joinBlocks_countP _ (by
        intro b hb
        obtain ⟨e, _, rfl⟩ := List.mem_map.mp hb
        exact ctrlBlock_countP e)]
    simp [List.countP_cons, linePC_empty, linePC_using, linePC_ns,
      show linePC "using Microsoft.AspNetCore.Http;" = false from by decide,
      show linePC "using Microsoft.AspNetCore.Mvc;" = false from by decide,
      show linePC "using Microsoft.Extensions.Logging;" = false from
        by decide]

theorem recInsert_keys_fresh {α : Type} (k : String) (v : α)
    (l : List (String × α)) (h : k ∉ l.map Prod.fst) :
    (recInsert k v l).map Prod.fst = l.map Prod.fst ++ [k] := by
  induction l with
  | nil => rfl
  | cons hd tl ih =>
    obtain ⟨k3, v3⟩ := hd
    have hne : (k3 == k) = false := by
      refine beq_eq_false_iff_ne.mpr (fun heq => h ?_)
      rw [← heq]
      exact List.mem_cons_self _ _
    unfold recInsert
    rw [if_neg (by simp [hne])]
    simp only [List.map_cons]
    rw [ih (fun hmem => h (List.mem_cons_of_mem _ hmem))]
    rfl

theorem recInsert_length_fresh {α : Type} (k : String) (v : α)
    (l : List (String × α)) (h : k ∉ l.map Prod.fst) :
    (recInsert k v l).length = l.length + 1 := by
  have h2 := congrArg List.length (recInsert_keys_fresh k v l h)
  simpa using h2

theorem insertEntries_length_fresh {α : Type} (entries : List (String × α)) :
    ∀ (acc : List (String × α)),
    (∀ k ∈ entries.map Prod.fst, k ∉ acc.map Prod.fst) →
    (entries.map Prod.fst).Nodup →
    (insertEntries entries acc).length = acc.length + entries.length ∧
    (insertEntries entries acc).map Prod.fst =
      acc.map Prod.fst ++ entries.map Prod.fst := by
  induction entries with
  | nil =>
    intro acc _ _
    simp [insertEntries]
  | cons hd rest ih =>
    intro acc hfresh hnodup
    obtain ⟨k, v⟩ := hd
    have hk : k ∉ acc.map Prod.fst := hfresh k (by simp)
    have hkeys := recInsert_keys_fresh k v acc hk
    have hlen := recInsert_length_fresh k v acc hk
    have hnodup2 : (rest.map Prod.fst).Nodup := by
      simpa using (List.nodup_cons.mp (by simpa using hnodup)).2
    have hfresh2 : ∀ k2 ∈ rest.map Prod.fst,
        k2 ∉ (recInsert k v acc).map Prod.fst := by
      intro k2 hk2
      rw [hkeys]
      simp only [List.mem_append, List.mem_singleton]
      rintro (hmem | rfl)
      · exact hfresh k2 (by simp [hk2]) hmem
      · exact (List.nodup_cons.mp (by simpa using hnodup)).1 hk2
    obtain ⟨ihlen, ihkeys⟩ := ih (recInsert k v acc) hfresh2 hnodup2
    refine ⟨?_, ?_⟩
    · rw [show insertEntries ((k, v) :: rest) acc =
          insertEntries rest (recInsert k v acc) from rfl, ihlen, hlen]
      simp
      omega
    · rw [show insertEntries ((k, v) :: rest) acc =
          insertEntries rest (recInsert k v acc) from rfl, ihkeys, hkeys]
      simp

theorem buildSchemas_length (m : DataModel) (es : List Entity) :
    ∀ (acc : List (String × OpenAPIObjectSchema)),
    (∀ k ∈ schemaKeyList es, k ∉ acc.map Prod.fst) →
    (schemaKeyList es).Nodup →
    (buildSchemas m es acc).length = acc.length + 3 * es.length := by
  induction es with
  | nil =>
    intro acc _ _
    simp [buildSchemas]
  | cons e rest ih =>
    intro acc hfresh hnodup
    rw [show buildSchemas m (e :: rest) acc =
        buildSchemas m rest (insertEntries (entitySchemaEntries m e) acc)
      from rfl]
    have hsplit : schemaKeyList (e :: rest) =
        entitySchemaKeys e ++ schemaKeyList rest := by
      simp [schemaKeyList]
    rw [hsplit] at hfresh hnodup
    obtain ⟨hn1, hn2, hdisj⟩ := List.nodup_append.mp hnodup
    have hemap : (entitySchemaEntries m e).map Prod.fst = entitySchemaKeys e :=
      rfl
    have hfresh1 : ∀ k ∈ (entitySchemaEntries m e).map Prod.fst,
        k ∉ acc.map Prod.fst := by
      intro k hk
      rw [hemap] at hk
      exact hfresh k (List.mem_append_left _ hk)
    obtain ⟨hlen, hkeys⟩ := insertEntries_length_fresh _ acc hfresh1
      (by rw [hemap]; exact hn1)
    have hfresh2 : ∀ k ∈ schemaKeyList rest,
        k ∉ (insertEntries (entitySchemaEntries m e) acc).map Prod.fst := by
      intro k hk
      rw [hkeys, hemap]
      simp only [List.mem_append]
      rintro (hmem | hmem)
      · exact hfresh k (List.mem_append_right _ hk) hmem
      · exact hdisj hmem hk
    rw [ih _ hfresh2 hn2, hlen]
    have h3 : (entitySchemaEntries m e).length = 3 := rfl
    rw [h3]
    simp only [List.length_cons]
    omega

theorem buildPaths_length (es : List Entity) :
    ∀ (acc : List (String × PathItem)),
    (∀ k ∈ pathKeyList es, k ∉ acc.map Prod.fst) →
    (pathKeyList es).Nodup →
    (buildPaths es acc).length = acc.length + 2 * es.length := by
  induction es with
  | nil =>
    intro acc _ _
    simp [buildPaths]
  | cons e rest ih =>
    intro acc hfresh hnodup
    rw [show buildPaths (e :: rest) acc =
        buildPaths rest (insertEntries (generateEntityPaths e) acc) from rfl]
    have hsplit : pathKeyList (e :: rest) =
        (generateEntityPaths e).map Prod.fst ++ pathKeyList rest := by
      simp [pathKeyList]
    rw [hsplit] at hfresh hnodup
    obtain ⟨hn1, hn2, hdisj⟩ := List.nodup_append.mp hnodup
    have hfresh1 : ∀ k ∈ (generateEntityPaths e).map Prod.fst,
        k ∉ acc.map Prod.fst := by
      intro k hk
      exact hfresh k (List.mem_append_left _ hk)
    obtain ⟨hlen, hkeys⟩ := insertEntries_length_fresh _ acc hfresh1 hn1
    have hfresh2 : ∀ k ∈ pathKeyList rest,
        k ∉ (insertEntries (generateEntityPaths e) acc).map Prod.fst := by
      intro k hk
      rw [hkeys]
      simp only [List.mem_append]
      rintro (hmem | hmem)
      · exact hfresh k (List.mem_append_right _ hk) hmem
      · exact hdisj hmem hk
    rw [ih _ hfresh2 hn2, hlen]
    have h2 : (generateEntityPaths e).length = 2 := rfl
    rw [h2]
    simp only [List.length_cons]
    omega

/-- C8 counterexample: the model with the two distinct entities
"user-account" and "user_account" has zero dangling relations, yet the
OpenAPI document holds 3 component schemas and 2 path items in total — not
3 and 2 per entity — because both names PascalCase to "UserAccount" and
the schema/path records are keyed by that name, so the second entity's
entries overwrite the first's. -/
theorem c8_block_count_counterexample :
    exCollideModel.relations = [] ∧
    exCollideModel.entities.length = 2 ∧
    (generateOpenAPIDoc exCollideModel).schemas.length = 3 ∧
    (generateOpenAPIDoc exCollideModel).schemas.length ≠
      3 * exCollideModel.entities.length ∧
    (generateOpenAPIDoc exCollideModel).paths.length = 2 ∧
    (generateOpenAPIDoc exCollideModel).paths.length ≠
      2 * exCollideModel.entities.length := by
  decide

/-- C8 (amended): for a model with zero dangling relations the entity-class
generator emits exactly one class declaration per entity and the controller
generator exactly one controller class per entity, unconditionally; the
OpenAPI generator emits three component schemas and two path items per
entity provided additionally that the generated schema record keys are
pairwise distinct and the generated path record keys are pairwise distinct
(the records are keyed by PascalCased entity name and by camelCased
pluralized name, and colliding keys overwrite instead of adding). -/
theorem c8_block_count_amended (m : DataModel)
    (hdangling : ∀ r ∈ m.relations,
      getEntityById m.entities r.sourceEntityId ≠ none ∧
      getEntityById m.entities r.targetEntityId ≠ none)
    (hschemas : (schemaKeyList m.entities).Nodup)
    (hpaths : (pathKeyList m.entities).Nodup) :
    (generateEFCoreEntitiesLines m).countP linePC = m.entities.length ∧
    (generateControllersLines m).countP linePC = m.entities.length ∧
    (generateOpenAPIDoc m).schemas.length = 3 * m.entities.length ∧
    (generateOpenAPIDoc m).paths.length = 2 * m.entities.length := by
  refine ⟨efcoreLines_countP m, controllersLines_countP m, ?_, ?_⟩
  · unfold generateOpenAPIDoc
    by_cases h0 : m.entities.length = 0
    · rw [if_pos h0]
      simp [h0]
    · rw [if_neg h0]
      show (buildSchemas m m.entities []).length = 3 * m.entities.length
      rw [buildSchemas_length m m.entities [] (by simp) hschemas]
      simp
  · unfold generateOpenAPIDoc
    by_cases h0 : m.entities.length = 0
    · rw [if_pos h0]
      simp [h0]
    · rw [if_neg h0]
      show (buildPaths m.entities []).length = 2 * m.entities.length
      rw [buildPaths_length m.entities [] (by simp) hpaths]
      simp

/-- Witness for C8 (amended) at the concrete two-entity Order/User model. -/
theorem c8_block_count_amended_witness :
    ((∀ r ∈ exModel.relations,
        getEntityById exModel.entities r.sourceEntityId ≠ none ∧
        getEntityById exModel.entities r.targetEntityId ≠ none) ∧
     (schemaKeyList exModel.entities).Nodup ∧
     (pathKeyList exModel.entities).Nodup) ∧
    ((generateEFCoreEntitiesLines exModel).countP linePC =
        exModel.entities.length ∧
     (generateControllersLines exModel).countP linePC =
        exModel.entities.length ∧
     (generateOpenAPIDoc exModel).schemas.length =
        3 * exModel.entities.length ∧
     (generateOpenAPIDoc exModel).paths.length =
        2 * exModel.entities.length) :=
  ⟨⟨by decide, by decide, by decide⟩,
   c8_block_count_amended exModel (by decide) (by decide) (by decide)⟩

end DbTool
